import Mathlib

/-!
Shallow embedding of the 6502 CPU core of the rustynes emulator
(src/src/cpu.rs) and proofs about its instruction semantics, cycle
accounting, stack discipline and execution loop.

Conventions of the embedding:
* `u8`/`u16` values are `Nat`s; wrapping arithmetic of the source is made
  explicit with `% 256` / `% 65536`; a Rust bit test `v & 0x80 == 0x80` is
  translated to `128 ≤ v % 256` (the same bit of the low byte), `v & 0xff`
  to `v % 256`, `v & 0xff00` page comparisons to `v / 256` comparisons
  (all operands involved are < 65536), shifts `>> 1` / `<< 1` to `/ 2` and
  `* 2`.
* signed `i8`/`i16` intermediates of the source are `Int`s; the Rust cast
  `as u16` of a signed value is `Int.emod 65536` (two's complement low 16
  bits), `i16 & 0xff` is `Int.emod 256`.
* the console diagnostics of the source (`println!`) have no effect on the
  machine state and are not modelled.
-/

set_option maxHeartbeats 1600000
set_option maxRecDepth 8192

namespace RustyNes

/-- Modelled from the spec: the byte-addressable 16-bit memory interface
(`nes::Memory` with its `mmu`/`ppu` plumbing) is external to the CPU core
and is not part of src/; per spec section 6 it is a byte-addressable
16-bit address space behaving as plain RAM for the purposes of this model. -/
abbrev Memory := Nat → Nat

/-- Modelled from the spec: `read_u8` of the external memory interface,
a single-byte read in a 16-bit address space. -/
def read_u8 (m : Memory) (addr : Nat) : Nat := m (addr % 65536) % 256

/-- Modelled from the spec: `write_u8` of the external memory interface,
a single-byte write in a 16-bit address space. -/
def write_u8 (m : Memory) (addr data : Nat) : Memory :=
  fun a => if a = addr % 65536 then data % 256 else m a

/-- Modelled from the spec: `read_u16` of the external memory interface;
two byte reads, low byte at `addr`, high byte at `addr + 1`, combined
little-endian, no wraparound beyond natural 16-bit overflow. -/
def read_u16 (m : Memory) (addr : Nat) : Nat :=
  read_u8 m addr + 256 * read_u8 m ((addr + 1) % 65536)

/-- The processor state (struct `Cpu` of cpu.rs). -/
structure Cpu where
  a : Nat
  x : Nat
  y : Nat
  sp : Nat
  pc : Nat
  carry : Bool
  zero : Bool
  interrupt : Bool
  decimal : Bool
  brk : Bool
  overflow : Bool
  sign : Bool
  tick_count : Nat
  is_debugging : Bool
  current_opcode : Nat

/-- enum `BreakCondition` of cpu.rs. -/
inductive BreakCondition where
  | RunToPc (pc : Nat)
  | RunNext
  | RunToScanline
  | RunFrame

/-- `make_address` of cpu.rs: `((d as u16) << 8) + (c as u16)`. -/
def make_address (c d : Nat) : Nat := d * 256 + c

/-- `Cpu::new` of cpu.rs. -/
def Cpu.new : Cpu :=
  { a := 0, x := 0, y := 0, sp := 0xff, pc := 0xfffc,
    carry := false, zero := false, interrupt := false, decimal := false,
    brk := false, overflow := false, sign := false,
    tick_count := 0, is_debugging := false, current_opcode := 0 }

/-- sign extension of a `u8` reinterpreted as `i8` (the Rust cast `as i8`). -/
def sext8 (v : Nat) : Int := if v < 128 then (v : Int) else (v : Int) - 256

/-- low 16 bits of a signed intermediate (the Rust casts `as u16` /
`& 0xffff` on signed values). -/
def to_u16 (i : Int) : Nat := (i % 65536).toNat

/-- `zero_page` of cpu.rs. -/
def zero_page (_cpu : Cpu) (m : Memory) (c : Nat) : Nat := read_u8 m c

/-- `zero_page_x` of cpu.rs: `0xff & (c as u16 + self.x as u16)`. -/
def zero_page_x (cpu : Cpu) (m : Memory) (c : Nat) : Nat :=
  read_u8 m ((c + cpu.x) % 256)

/-- `zero_page_y` of cpu.rs. -/
def zero_page_y (cpu : Cpu) (m : Memory) (c : Nat) : Nat :=
  read_u8 m ((c + cpu.y) % 256)

/-- `absolute` of cpu.rs. -/
def absolute (_cpu : Cpu) (m : Memory) (c d : Nat) : Nat :=
  read_u8 m (make_address c d)

/-- `absolute_x` of cpu.rs: the page-cross check compares the high bytes of
the base and the indexed address and charges one tick when they differ. -/
def absolute_x (cpu : Cpu) (m : Memory) (c d : Nat) (check_page : Bool) :
    Cpu × Nat :=
  let cpu :=
    if check_page then
      if make_address c d / 256 ≠ (make_address c d + cpu.x) % 65536 / 256 then
        { cpu with tick_count := cpu.tick_count + 1 }
      else cpu
    else cpu
  (cpu, read_u8 m ((make_address c d + cpu.x) % 65536))

/-- `absolute_y` of cpu.rs. -/
def absolute_y (cpu : Cpu) (m : Memory) (c d : Nat) (check_page : Bool) :
    Cpu × Nat :=
  let cpu :=
    if check_page then
      if make_address c d / 256 ≠ (make_address c d + cpu.y) % 65536 / 256 then
        { cpu with tick_count := cpu.tick_count + 1 }
      else cpu
    else cpu
  (cpu, read_u8 m ((make_address c d + cpu.y) % 65536))

/-- `indirect_x` of cpu.rs. -/
def indirect_x (cpu : Cpu) (m : Memory) (c : Nat) : Nat :=
  read_u8 m (read_u16 m ((c + cpu.x) % 256))

/-- `indirect_y` of cpu.rs. -/
def indirect_y (cpu : Cpu) (m : Memory) (c : Nat) (check_page : Bool) :
    Cpu × Nat :=
  let cpu :=
    if check_page then
      if read_u16 m c / 256 ≠ (read_u16 m c + cpu.y) % 65536 / 256 then
        { cpu with tick_count := cpu.tick_count + 1 }
      else cpu
    else cpu
  (cpu, read_u8 m ((read_u16 m c + cpu.y) % 65536))

/-- `zero_page_write` of cpu.rs. -/
def zero_page_write (_cpu : Cpu) (m : Memory) (c data : Nat) : Memory :=
  write_u8 m c data

/-- `zero_page_x_write` of cpu.rs. -/
def zero_page_x_write (cpu : Cpu) (m : Memory) (c data : Nat) : Memory :=
  write_u8 m ((c + cpu.x) % 256) data

/-- `zero_page_y_write` of cpu.rs. -/
def zero_page_y_write (cpu : Cpu) (m : Memory) (c data : Nat) : Memory :=
  write_u8 m ((c + cpu.y) % 256) data

/-- `absolute_write` of cpu.rs (the `0x204` console diagnostic is not
modelled). -/
def absolute_write (_cpu : Cpu) (m : Memory) (c d data : Nat) : Memory :=
  write_u8 m (make_address c d) data

/-- `absolute_x_write` of cpu.rs. -/
def absolute_x_write (cpu : Cpu) (m : Memory) (c d data : Nat) : Memory :=
  write_u8 m ((make_address c d + cpu.x) % 65536) data

/-- `absolute_y_write` of cpu.rs. -/
def absolute_y_write (cpu : Cpu) (m : Memory) (c d data : Nat) : Memory :=
  write_u8 m ((make_address c d + cpu.y) % 65536) data

/-- `indirect_x_write` of cpu.rs. -/
def indirect_x_write (cpu : Cpu) (m : Memory) (c data : Nat) : Memory :=
  write_u8 m (read_u16 m ((c + cpu.x) % 256)) data

/-- `indirect_y_write` of cpu.rs. -/
def indirect_y_write (cpu : Cpu) (m : Memory) (c data : Nat) : Memory :=
  write_u8 m ((read_u16 m c + cpu.y) % 65536) data

/-- `push_u8` of cpu.rs: write to `0x100 + sp`, then decrement `sp` with
wraparound from 0 to 0xff. -/
def push_u8 (cpu : Cpu) (m : Memory) (data : Nat) : Cpu × Memory :=
  let m := write_u8 m (0x100 + cpu.sp) data
  if cpu.sp = 0 then ({ cpu with sp := 0xff }, m)
  else ({ cpu with sp := cpu.sp - 1 }, m)

/-- `push_u16` of cpu.rs: high byte first, then low byte. -/
def push_u16 (cpu : Cpu) (m : Memory) (data : Nat) : Cpu × Memory :=
  let r := push_u8 cpu m (data / 256)
  push_u8 r.1 r.2 (data % 256)

/-- `push_status` of cpu.rs: pack the seven flags
(sign 0x80, overflow 0x40, break 0x10, decimal 0x08, interrupt 0x04,
zero 0x02, carry 0x01) and push the byte. -/
def push_status (cpu : Cpu) (m : Memory) : Cpu × Memory :=
  let status :=
    (if cpu.sign then 0x80 else 0) + (if cpu.overflow then 0x40 else 0) +
    (if cpu.brk then 0x10 else 0) + (if cpu.decimal then 0x08 else 0) +
    (if cpu.interrupt then 0x04 else 0) + (if cpu.zero then 0x02 else 0) +
    (if cpu.carry then 0x01 else 0)
  push_u8 cpu m status

/-- `pull_u8` of cpu.rs: increment `sp` with wraparound from 0xff to 0,
then read from `0x100 + sp`. -/
def pull_u8 (cpu : Cpu) (m : Memory) : Cpu × Nat :=
  let cpu :=
    if cpu.sp = 0xff then { cpu with sp := 0 }
    else { cpu with sp := cpu.sp + 1 }
  (cpu, read_u8 m (0x100 + cpu.sp))

/-- `pull_u16` of cpu.rs. -/
def pull_u16 (cpu : Cpu) (m : Memory) : Cpu × Nat :=
  let r1 := pull_u8 cpu m
  let r2 := pull_u8 r1.1 m
  (r2.1, make_address r1.2 r2.2)

/-- `pull_status` of cpu.rs: unpack the seven flag bits from the pulled
byte. -/
def pull_status (cpu : Cpu) (m : Memory) : Cpu :=
  let r := pull_u8 cpu m
  let status := r.2
  { r.1 with
    sign := decide (128 ≤ status % 256),
    overflow := decide (64 ≤ status % 128),
    brk := decide (16 ≤ status % 32),
    decimal := decide (8 ≤ status % 16),
    interrupt := decide (4 ≤ status % 8),
    zero := decide (2 ≤ status % 4),
    carry := decide (status % 2 = 1) }

/-- `adc` of cpu.rs. -/
def adc (cpu : Cpu) (m : Memory) : Cpu × Memory :=
  let arg1 := read_u8 m ((cpu.pc + 1) % 65536)
  let arg2 := read_u8 m ((cpu.pc + 2) % 65536)
  let op := cpu.current_opcode
  let av : Cpu × Nat :=
    match op with
    | 0x69 => (cpu, arg1)
    | 0x65 => (cpu, zero_page cpu m arg1)
    | 0x75 => (cpu, zero_page_x cpu m arg1)
    | 0x6d => (cpu, absolute cpu m arg1 arg2)
    | 0x7d => absolute_x cpu m arg1 arg2 true
    | 0x79 => absolute_y cpu m arg1 arg2 true
    | 0x61 => (cpu, indirect_x cpu m arg1)
    | 0x71 => indirect_y cpu m arg1 true
    | _ => (cpu, 0)
  let cpu := av.1
  let total := cpu.a + av.2 + (if cpu.carry then 1 else 0)
  let cpu := { cpu with
    carry := decide (0xff < total),
    overflow := decide (0xff < total),
    zero := decide (total % 256 = 0),
    sign := decide (128 ≤ total % 256),
    a := total % 256 }
  match op with
  | 0x69 => ({ cpu with tick_count := cpu.tick_count + 2, pc := (cpu.pc + 2) % 65536 }, m)
  | 0x65 => ({ cpu with tick_count := cpu.tick_count + 3, pc := (cpu.pc + 2) % 65536 }, m)
  | 0x75 => ({ cpu with tick_count := cpu.tick_count + 4, pc := (cpu.pc + 2) % 65536 }, m)
  | 0x6d => ({ cpu with tick_count := cpu.tick_count + 4, pc := (cpu.pc + 3) % 65536 }, m)
  | 0x7d => ({ cpu with tick_count := cpu.tick_count + 4, pc := (cpu.pc + 3) % 65536 }, m)
  | 0x79 => ({ cpu with tick_count := cpu.tick_count + 4, pc := (cpu.pc + 3) % 65536 }, m)
  | 0x61 => ({ cpu with tick_count := cpu.tick_count + 6, pc := (cpu.pc + 2) % 65536 }, m)
  | 0x71 => ({ cpu with tick_count := cpu.tick_count + 5, pc := (cpu.pc + 2) % 65536 }, m)
  | _ => (cpu, m)

/-- `and` of cpu.rs. -/
def and (cpu : Cpu) (m : Memory) : Cpu × Memory :=
  let arg1 := read_u8 m ((cpu.pc + 1) % 65536)
  let arg2 := read_u8 m ((cpu.pc + 2) % 65536)
  let op := cpu.current_opcode
  let av : Cpu × Nat :=
    match op with
    | 0x29 => (cpu, arg1)
    | 0x25 => (cpu, zero_page cpu m arg1)
    | 0x35 => (cpu, zero_page_x cpu m arg1)
    | 0x2d => (cpu, absolute cpu m arg1 arg2)
    | 0x3d => absolute_x cpu m arg1 arg2 true
    | 0x39 => absolute_y cpu m arg1 arg2 true
    | 0x21 => (cpu, indirect_x cpu m arg1)
    | 0x31 => indirect_y cpu m arg1 true
    | _ => (cpu, 0)
  let cpu := av.1
  let cpu := { cpu with a := cpu.a &&& av.2 }
  let cpu := { cpu with
    zero := decide (cpu.a % 256 = 0),
    sign := decide (128 ≤ cpu.a % 256) }
  match op with
  | 0x29 => ({ cpu with tick_count := cpu.tick_count + 2, pc := (cpu.pc + 2) % 65536 }, m)
  | 0x25 => ({ cpu with tick_count := cpu.tick_count + 3, pc := (cpu.pc + 2) % 65536 }, m)
  | 0x35 => ({ cpu with tick_count := cpu.tick_count + 4, pc := (cpu.pc + 2) % 65536 }, m)
  | 0x2d => ({ cpu with tick_count := cpu.tick_count + 4, pc := (cpu.pc + 3) % 65536 }, m)
  | 0x3d => ({ cpu with tick_count := cpu.tick_count + 4, pc := (cpu.pc + 3) % 65536 }, m)
  | 0x39 => ({ cpu with tick_count := cpu.tick_count + 4, pc := (cpu.pc + 3) % 65536 }, m)
  | 0x21 => ({ cpu with tick_count := cpu.tick_count + 6, pc := (cpu.pc + 2) % 65536 }, m)
  | 0x31 => ({ cpu with tick_count := cpu.tick_count + 5, pc := (cpu.pc + 2) % 65536 }, m)
  | _ => (cpu, m)

/-- `asl` of cpu.rs. -/
def asl (cpu : Cpu) (m : Memory) : Cpu × Memory :=
  let arg1 := read_u8 m ((cpu.pc + 1) % 65536)
  let arg2 := read_u8 m ((cpu.pc + 2) % 65536)
  let op := cpu.current_opcode
  let av : Cpu × Nat :=
    match op with
    | 0x0a => (cpu, cpu.a)
    | 0x06 => (cpu, zero_page cpu m arg1)
    | 0x16 => (cpu, zero_page_x cpu m arg1)
    | 0x0e => (cpu, absolute cpu m arg1 arg2)
    | 0x1e => absolute_x cpu m arg1 arg2 true
    | _ => (cpu, 0)
  let cpu := av.1
  let cpu := { cpu with carry := decide (128 ≤ av.2 % 256) }
  let value := av.2 * 2 % 256
  let cpu := { cpu with
    zero := decide (value = 0),
    sign := decide (128 ≤ value % 256) }
  match op with
  | 0x0a => ({ cpu with a := value, tick_count := cpu.tick_count + 2, pc := (cpu.pc + 1) % 65536 }, m)
  | 0x06 => ({ cpu with tick_count := cpu.tick_count + 5, pc := (cpu.pc + 2) % 65536 },
             zero_page_write cpu m arg1 value)
  | 0x16 => ({ cpu with tick_count := cpu.tick_count + 6, pc := (cpu.pc + 2) % 65536 },
             zero_page_x_write cpu m arg1 value)
  | 0x0e => ({ cpu with tick_count := cpu.tick_count + 6, pc := (cpu.pc + 3) % 65536 },
             absolute_write cpu m arg1 arg2 value)
  | 0x1e => ({ cpu with tick_count := cpu.tick_count + 7, pc := (cpu.pc + 3) % 65536 },
             absolute_x_write cpu m arg1 arg2 value)
  | _ => (cpu, m)

/-- the page-cross test shared verbatim by the eight branch handlers of
cpu.rs: `(self.pc & 0xff00) != ((self.pc as i16 + 2i16 + arg1 as i16) as u16 & 0xff00)`,
evaluated after `self.pc += 2`. -/
def branch_page_check (pc off : Nat) : Bool :=
  decide (pc / 256 ≠ to_u16 ((pc : Int) + 2 + sext8 off) / 256)

/-- the branch-target computation shared verbatim by the eight branch
handlers of cpu.rs: `(0xffff & (self.pc as i32 + arg1 as i32)) as u16`. -/
def branch_target (pc off : Nat) : Nat := to_u16 ((pc : Int) + sext8 off)

/-- `bcc` of cpu.rs. -/
def bcc (cpu : Cpu) (m : Memory) : Cpu × Memory :=
  let arg1 := read_u8 m ((cpu.pc + 1) % 65536)
  let cpu := { cpu with pc := (cpu.pc + 2) % 65536 }
  let cpu :=
    if !cpu.carry then
      let cpu :=
        if branch_page_check cpu.pc arg1 then
          { cpu with tick_count := cpu.tick_count + 1 }
        else cpu
      { cpu with pc := branch_target cpu.pc arg1, tick_count := cpu.tick_count + 1 }
    else cpu
  ({ cpu with tick_count := cpu.tick_count + 2 }, m)

/-- `bcs` of cpu.rs. -/
def bcs (cpu : Cpu) (m : Memory) : Cpu × Memory :=
  let arg1 := read_u8 m ((cpu.pc + 1) % 65536)
  let cpu := { cpu with pc := (cpu.pc + 2) % 65536 }
  let cpu :=
    if cpu.carry then
      let cpu :=
        if branch_page_check cpu.pc arg1 then
          { cpu with tick_count := cpu.tick_count + 1 }
        else cpu
      { cpu with pc := branch_target cpu.pc arg1, tick_count := cpu.tick_count + 1 }
    else cpu
  ({ cpu with tick_count := cpu.tick_count + 2 }, m)

/-- `beq` of cpu.rs. -/
def beq (cpu : Cpu) (m : Memory) : Cpu × Memory :=
  let arg1 := read_u8 m ((cpu.pc + 1) % 65536)
  let cpu := { cpu with pc := (cpu.pc + 2) % 65536 }
  let cpu :=
    if cpu.zero then
      let cpu :=
        if branch_page_check cpu.pc arg1 then
          { cpu with tick_count := cpu.tick_count + 1 }
        else cpu
      { cpu with pc := branch_target cpu.pc arg1, tick_count := cpu.tick_count + 1 }
    else cpu
  ({ cpu with tick_count := cpu.tick_count + 2 }, m)

/-- `bit` of cpu.rs. -/
def bit (cpu : Cpu) (m : Memory) : Cpu × Memory :=
  let arg1 := read_u8 m ((cpu.pc + 1) % 65536)
  let arg2 := read_u8 m ((cpu.pc + 2) % 65536)
  let value :=
    match cpu.current_opcode with
    | 0x24 => zero_page cpu m arg1
    | 0x2c => absolute cpu m arg1 arg2
    | _ => 0
  let cpu := { cpu with
    zero := decide (cpu.a &&& value = 0),
    sign := decide (128 ≤ value % 256),
    overflow := decide (64 ≤ value % 128) }
  match cpu.current_opcode with
  | 0x24 => ({ cpu with tick_count := cpu.tick_count + 3, pc := (cpu.pc + 2) % 65536 }, m)
  | 0x2c => ({ cpu with tick_count := cpu.tick_count + 4, pc := (cpu.pc + 3) % 65536 }, m)
  | _ => (cpu, m)

/-- `bmi` of cpu.rs. -/
def bmi (cpu : Cpu) (m : Memory) : Cpu × Memory :=
  let arg1 := read_u8 m ((cpu.pc + 1) % 65536)
  let cpu := { cpu with pc := (cpu.pc + 2) % 65536 }
  let cpu :=
    if cpu.sign then
      let cpu :=
        if branch_page_check cpu.pc arg1 then
          { cpu with tick_count := cpu.tick_count + 1 }
        else cpu
      { cpu with pc := branch_target cpu.pc arg1, tick_count := cpu.tick_count + 1 }
    else cpu
  ({ cpu with tick_count := cpu.tick_count + 2 }, m)

/-- `bne` of cpu.rs. -/
def bne (cpu : Cpu) (m : Memory) : Cpu × Memory :=
  let arg1 := read_u8 m ((cpu.pc + 1) % 65536)
  let cpu := { cpu with pc := (cpu.pc + 2) % 65536 }
  let cpu :=
    if !cpu.zero then
      let cpu :=
        if branch_page_check cpu.pc arg1 then
          { cpu with tick_count := cpu.tick_count + 1 }
        else cpu
      { cpu with pc := branch_target cpu.pc arg1, tick_count := cpu.tick_count + 1 }
    else cpu
  ({ cpu with tick_count := cpu.tick_count + 2 }, m)

/-- `bpl` of cpu.rs. -/
def bpl (cpu : Cpu) (m : Memory) : Cpu × Memory :=
  let arg1 := read_u8 m ((cpu.pc + 1) % 65536)
  let cpu := { cpu with pc := (cpu.pc + 2) % 65536 }
  let cpu :=
    if !cpu.sign then
      let cpu :=
        if branch_page_check cpu.pc arg1 then
          { cpu with tick_count := cpu.tick_count + 1 }
        else cpu
      { cpu with pc := branch_target cpu.pc arg1, tick_count := cpu.tick_count + 1 }
    else cpu
  ({ cpu with tick_count := cpu.tick_count + 2 }, m)

/-- `brk` of cpu.rs: note the source masks the advanced program counter
with `0xff` (not `0xffff`) before pushing it. -/
def brk (cpu : Cpu) (m : Memory) : Cpu × Memory :=
  let cpu := { cpu with pc := (cpu.pc + 2) % 65536 % 256 }
  let r := push_u16 cpu m cpu.pc
  let cpu := { r.1 with brk := true }
  let r2 := push_status cpu r.2
  let cpu := { r2.1 with interrupt := true }
  let cpu := { cpu with pc := read_u16 r2.2 0xfffe, tick_count := cpu.tick_count + 7 }
  (cpu, r2.2)

/-- `bvc` of cpu.rs. -/
def bvc (cpu : Cpu) (m : Memory) : Cpu × Memory :=
  let arg1 := read_u8 m ((cpu.pc + 1) % 65536)
  let cpu := { cpu with pc := (cpu.pc + 2) % 65536 }
  let cpu :=
    if !cpu.overflow then
      let cpu :=
        if branch_page_check cpu.pc arg1 then
          { cpu with tick_count := cpu.tick_count + 1 }
        else cpu
      { cpu with pc := branch_target cpu.pc arg1, tick_count := cpu.tick_count + 1 }
    else cpu
  ({ cpu with tick_count := cpu.tick_count + 2 }, m)

/-- `bvs` of cpu.rs. -/
def bvs (cpu : Cpu) (m : Memory) : Cpu × Memory :=
  let arg1 := read_u8 m ((cpu.pc + 1) % 65536)
  let cpu := { cpu with pc := (cpu.pc + 2) % 65536 }
  let cpu :=
    if cpu.overflow then
      let cpu :=
        if branch_page_check cpu.pc arg1 then
          { cpu with tick_count := cpu.tick_count + 1 }
        else cpu
      { cpu with pc := branch_target cpu.pc arg1, tick_count := cpu.tick_count + 1 }
    else cpu
  ({ cpu with tick_count := cpu.tick_count + 2 }, m)

/-- `clc` of cpu.rs. -/
def clc (cpu : Cpu) : Cpu :=
  { cpu with carry := false, pc := (cpu.pc + 1) % 65536, tick_count := cpu.tick_count + 2 }

/-- `cld` of cpu.rs. -/
def cld (cpu : Cpu) : Cpu :=
  { cpu with decimal := false, pc := (cpu.pc + 1) % 65536, tick_count := cpu.tick_count + 2 }

/-- `cli` of cpu.rs. -/
def cli (cpu : Cpu) : Cpu :=
  { cpu with interrupt := false, pc := (cpu.pc + 1) % 65536, tick_count := cpu.tick_count + 2 }

/-- `clv` of cpu.rs. -/
def clv (cpu : Cpu) : Cpu :=
  { cpu with overflow := false, pc := (cpu.pc + 1) % 65536, tick_count := cpu.tick_count + 2 }

/-- `cmp` of cpu.rs. -/
def cmp (cpu : Cpu) (m : Memory) : Cpu × Memory :=
  let arg1 := read_u8 m ((cpu.pc + 1) % 65536)
  let arg2 := read_u8 m ((cpu.pc + 2) % 65536)
  let op := cpu.current_opcode
  let av : Cpu × Nat :=
    match op with
    | 0xc9 => (cpu, arg1)
    | 0xc5 => (cpu, zero_page cpu m arg1)
    | 0xd5 => (cpu, zero_page_x cpu m arg1)
    | 0xcd => (cpu, absolute cpu m arg1 arg2)
    | 0xdd => absolute_x cpu m arg1 arg2 true
    | 0xd9 => absolute_y cpu m arg1 arg2 true
    | 0xc1 => (cpu, indirect_x cpu m arg1)
    | 0xd1 => indirect_y cpu m arg1 true
    | _ => (cpu, 0)
  let cpu := av.1
  let cpu := { cpu with carry := decide (av.2 ≤ cpu.a) }
  let value := (((cpu.a : Int) - (av.2 : Int)) % 256).toNat
  let cpu := { cpu with
    zero := decide (value = 0),
    sign := decide (128 ≤ value % 256) }
  match op with
  | 0xc9 => ({ cpu with tick_count := cpu.tick_count + 2, pc := (cpu.pc + 2) % 65536 }, m)
  | 0xc5 => ({ cpu with tick_count := cpu.tick_count + 3, pc := (cpu.pc + 2) % 65536 }, m)
  | 0xd5 => ({ cpu with tick_count := cpu.tick_count + 4, pc := (cpu.pc + 2) % 65536 }, m)
  | 0xcd => ({ cpu with tick_count := cpu.tick_count + 4, pc := (cpu.pc + 3) % 65536 }, m)
  | 0xdd => ({ cpu with tick_count := cpu.tick_count + 4, pc := (cpu.pc + 3) % 65536 }, m)
  | 0xd9 => ({ cpu with tick_count := cpu.tick_count + 4, pc := (cpu.pc + 3) % 65536 }, m)
  | 0xc1 => ({ cpu with tick_count := cpu.tick_count + 6, pc := (cpu.pc + 2) % 65536 }, m)
  | 0xd1 => ({ cpu with tick_count := cpu.tick_count + 5, pc := (cpu.pc + 2) % 65536 }, m)
  | _ => (cpu, m)

/-- `cpx` of cpu.rs. -/
def cpx (cpu : Cpu) (m : Memory) : Cpu × Memory :=
  let arg1 := read_u8 m ((cpu.pc + 1) % 65536)
  let arg2 := read_u8 m ((cpu.pc + 2) % 65536)
  let v :=
    match cpu.current_opcode with
    | 0xe0 => arg1
    | 0xe4 => zero_page cpu m arg1
    | 0xec => absolute cpu m arg1 arg2
    | _ => 0
  let cpu := { cpu with carry := decide (v ≤ cpu.x) }
  let value := (((cpu.x : Int) - (v : Int)) % 256).toNat
  let cpu := { cpu with
    zero := decide (value = 0),
    sign := decide (128 ≤ value % 256) }
  match cpu.current_opcode with
  | 0xe0 => ({ cpu with tick_count := cpu.tick_count + 2, pc := (cpu.pc + 2) % 65536 }, m)
  | 0xe4 => ({ cpu with tick_count := cpu.tick_count + 3, pc := (cpu.pc + 2) % 65536 }, m)
  | 0xec => ({ cpu with tick_count := cpu.tick_count + 4, pc := (cpu.pc + 3) % 65536 }, m)
  | _ => (cpu, m)

/-- `cpy` of cpu.rs. -/
def cpy (cpu : Cpu) (m : Memory) : Cpu × Memory :=
  let arg1 := read_u8 m ((cpu.pc + 1) % 65536)
  let arg2 := read_u8 m ((cpu.pc + 2) % 65536)
  let v :=
    match cpu.current_opcode with
    | 0xc0 => arg1
    | 0xc4 => zero_page cpu m arg1
    | 0xcc => absolute cpu m arg1 arg2
    | _ => 0
  let cpu := { cpu with carry := decide (v ≤ cpu.y) }
  let value := (((cpu.y : Int) - (v : Int)) % 256).toNat
  let cpu := { cpu with
    zero := decide (value = 0),
    sign := decide (128 ≤ value % 256) }
  match cpu.current_opcode with
  | 0xc0 => ({ cpu with tick_count := cpu.tick_count + 2, pc := (cpu.pc + 2) % 65536 }, m)
  | 0xc4 => ({ cpu with tick_count := cpu.tick_count + 3, pc := (cpu.pc + 2) % 65536 }, m)
  | 0xcc => ({ cpu with tick_count := cpu.tick_count + 4, pc := (cpu.pc + 3) % 65536 }, m)
  | _ => (cpu, m)

/-- `dec` of cpu.rs. -/
def dec (cpu : Cpu) (m : Memory) : Cpu × Memory :=
  let arg1 := read_u8 m ((cpu.pc + 1) % 65536)
  let arg2 := read_u8 m ((cpu.pc + 2) % 65536)
  let op := cpu.current_opcode
  let av : Cpu × Nat :=
    match op with
    | 0xc6 => (cpu, zero_page cpu m arg1)
    | 0xd6 => (cpu, zero_page_x cpu m arg1)
    | 0xce => (cpu, absolute cpu m arg1 arg2)
    | 0xde => absolute_x cpu m arg1 arg2 true
    | _ => (cpu, 0)
  let cpu := av.1
  let value := if av.2 = 0 then 0xff else av.2 - 1
  let cpu := { cpu with
    zero := decide (value = 0),
    sign := decide (128 ≤ value % 256) }
  match op with
  | 0xc6 => ({ cpu with tick_count := cpu.tick_count + 5, pc := (cpu.pc + 2) % 65536 },
             zero_page_write cpu m arg1 value)
  | 0xd6 => ({ cpu with tick_count := cpu.tick_count + 6, pc := (cpu.pc + 2) % 65536 },
             zero_page_x_write cpu m arg1 value)
  | 0xce => ({ cpu with tick_count := cpu.tick_count + 6, pc := (cpu.pc + 3) % 65536 },
             absolute_write cpu m arg1 arg2 value)
  | 0xde => ({ cpu with tick_count := cpu.tick_count + 7, pc := (cpu.pc + 3) % 65536 },
             absolute_x_write cpu m arg1 arg2 value)
  | _ => (cpu, m)

/-- `dex` of cpu.rs. -/
def dex (cpu : Cpu) : Cpu :=
  let x := if cpu.x = 0 then 0xff else cpu.x - 1
  { cpu with
    x := x,
    zero := decide (x = 0), sign := decide (128 ≤ x % 256),
    pc := (cpu.pc + 1) % 65536, tick_count := cpu.tick_count + 2 }

/-- `dey` of cpu.rs. -/
def dey (cpu : Cpu) : Cpu :=
  let y := if cpu.y = 0 then 0xff else cpu.y - 1
  { cpu with
    y := y,
    zero := decide (y = 0), sign := decide (128 ≤ y % 256),
    pc := (cpu.pc + 1) % 65536, tick_count := cpu.tick_count + 2 }

/-- `eor` of cpu.rs. -/
def eor (cpu : Cpu) (m : Memory) : Cpu × Memory :=
  let arg1 := read_u8 m ((cpu.pc + 1) % 65536)
  let arg2 := read_u8 m ((cpu.pc + 2) % 65536)
  let op := cpu.current_opcode
  let av : Cpu × Nat :=
    match op with
    | 0x49 => (cpu, arg1)
    | 0x45 => (cpu, zero_page cpu m arg1)
    | 0x55 => (cpu, zero_page_x cpu m arg1)
    | 0x4d => (cpu, absolute cpu m arg1 arg2)
    | 0x5d => absolute_x cpu m arg1 arg2 true
    | 0x59 => absolute_y cpu m arg1 arg2 true
    | 0x41 => (cpu, indirect_x cpu m arg1)
    | 0x51 => indirect_y cpu m arg1 true
    | _ => (cpu, 0)
  let cpu := av.1
  let cpu := { cpu with a := cpu.a ^^^ av.2 }
  let cpu := { cpu with
    zero := decide (cpu.a = 0),
    sign := decide (128 ≤ cpu.a % 256) }
  match op with
  | 0x49 => ({ cpu with tick_count := cpu.tick_count + 2, pc := (cpu.pc + 2) % 65536 }, m)
  | 0x45 => ({ cpu with tick_count := cpu.tick_count + 3, pc := (cpu.pc + 2) % 65536 }, m)
  | 0x55 => ({ cpu with tick_count := cpu.tick_count + 4, pc := (cpu.pc + 2) % 65536 }, m)
  | 0x4d => ({ cpu with tick_count := cpu.tick_count + 4, pc := (cpu.pc + 3) % 65536 }, m)
  | 0x5d => ({ cpu with tick_count := cpu.tick_count + 4, pc := (cpu.pc + 3) % 65536 }, m)
  | 0x59 => ({ cpu with tick_count := cpu.tick_count + 4, pc := (cpu.pc + 3) % 65536 }, m)
  | 0x41 => ({ cpu with tick_count := cpu.tick_count + 6, pc := (cpu.pc + 2) % 65536 }, m)
  | 0x51 => ({ cpu with tick_count := cpu.tick_count + 5, pc := (cpu.pc + 2) % 65536 }, m)
  | _ => (cpu, m)

/-- `inc` of cpu.rs. -/
def inc (cpu : Cpu) (m : Memory) : Cpu × Memory :=
  let arg1 := read_u8 m ((cpu.pc + 1) % 65536)
  let arg2 := read_u8 m ((cpu.pc + 2) % 65536)
  let op := cpu.current_opcode
  let av : Cpu × Nat :=
    match op with
    | 0xe6 => (cpu, zero_page cpu m arg1)
    | 0xf6 => (cpu, zero_page_x cpu m arg1)
    | 0xee => (cpu, absolute cpu m arg1 arg2)
    | 0xfe => absolute_x cpu m arg1 arg2 true
    | _ => (cpu, 0)
  let cpu := av.1
  let value := if av.2 = 0xff then 0 else av.2 + 1
  let cpu := { cpu with
    zero := decide (value = 0),
    sign := decide (128 ≤ value % 256) }
  match op with
  | 0xe6 => ({ cpu with tick_count := cpu.tick_count + 5, pc := (cpu.pc + 2) % 65536 },
             zero_page_write cpu m arg1 value)
  | 0xf6 => ({ cpu with tick_count := cpu.tick_count + 6, pc := (cpu.pc + 2) % 65536 },
             zero_page_x_write cpu m arg1 value)
  | 0xee => ({ cpu with tick_count := cpu.tick_count + 6, pc := (cpu.pc + 3) % 65536 },
             absolute_write cpu m arg1 arg2 value)
  | 0xfe => ({ cpu with tick_count := cpu.tick_count + 7, pc := (cpu.pc + 3) % 65536 },
             absolute_x_write cpu m arg1 arg2 value)
  | _ => (cpu, m)

/-- `inx` of cpu.rs. -/
def inx (cpu : Cpu) : Cpu :=
  let x := if cpu.x = 0xff then 0 else cpu.x + 1
  { cpu with
    x := x,
    zero := decide (x = 0), sign := decide (128 ≤ x % 256),
    pc := (cpu.pc + 1) % 65536, tick_count := cpu.tick_count + 2 }

/-- `iny` of cpu.rs. -/
def iny (cpu : Cpu) : Cpu :=
  let y := if cpu.y = 0xff then 0 else cpu.y + 1
  { cpu with
    y := y,
    zero := decide (y = 0), sign := decide (128 ≤ y % 256),
    pc := (cpu.pc + 1) % 65536, tick_count := cpu.tick_count + 2 }

/-- `jmp` of cpu.rs: the indirect form performs a plain linear `read_u16`
at the pointer (no 6502 page-wrap quirk). -/
def jmp (cpu : Cpu) (m : Memory) : Cpu × Memory :=
  let addr := read_u16 m ((cpu.pc + 1) % 65536)
  match cpu.current_opcode with
  | 0x4c => ({ cpu with pc := addr, tick_count := cpu.tick_count + 3 }, m)
  | 0x6c => ({ cpu with pc := read_u16 m addr, tick_count := cpu.tick_count + 5 }, m)
  | _ => (cpu, m)

/-- `jsr` of cpu.rs: pushes `pc + 2` (the address of the last byte of the
call instruction), then jumps. -/
def jsr (cpu : Cpu) (m : Memory) : Cpu × Memory :=
  let arg1 := read_u8 m ((cpu.pc + 1) % 65536)
  let arg2 := read_u8 m ((cpu.pc + 2) % 65536)
  let r := push_u16 cpu m ((cpu.pc + 2) % 65536)
  ({ r.1 with pc := make_address arg1 arg2, tick_count := r.1.tick_count + 6 }, r.2)

/-- `lda` of cpu.rs. -/
def lda (cpu : Cpu) (m : Memory) : Cpu × Memory :=
  let arg1 := read_u8 m ((cpu.pc + 1) % 65536)
  let arg2 := read_u8 m ((cpu.pc + 2) % 65536)
  let cpu :=
    match cpu.current_opcode with
    | 0xa9 => { cpu with a := arg1, tick_count := cpu.tick_count + 2, pc := (cpu.pc + 2) % 65536 }
    | 0xa5 => { cpu with a := zero_page cpu m arg1, tick_count := cpu.tick_count + 3, pc := (cpu.pc + 2) % 65536 }
    | 0xb5 => { cpu with a := zero_page_x cpu m arg1, tick_count := cpu.tick_count + 4, pc := (cpu.pc + 2) % 65536 }
    | 0xad => { cpu with a := absolute cpu m arg1 arg2, tick_count := cpu.tick_count + 4, pc := (cpu.pc + 3) % 65536 }
    | 0xbd =>
      let r := absolute_x cpu m arg1 arg2 true
      { r.1 with a := r.2, tick_count := r.1.tick_count + 4, pc := (r.1.pc + 3) % 65536 }
    | 0xb9 =>
      let r := absolute_y cpu m arg1 arg2 true
      { r.1 with a := r.2, tick_count := r.1.tick_count + 4, pc := (r.1.pc + 3) % 65536 }
    | 0xa1 => { cpu with a := indirect_x cpu m arg1, tick_count := cpu.tick_count + 6, pc := (cpu.pc + 2) % 65536 }
    | 0xb1 =>
      let r := indirect_y cpu m arg1 true
      { r.1 with a := r.2, tick_count := r.1.tick_count + 5, pc := (r.1.pc + 2) % 65536 }
    | _ => cpu
  ({ cpu with zero := decide (cpu.a = 0), sign := decide (128 ≤ cpu.a % 256) }, m)

/-- `ldx` of cpu.rs. -/
def ldx (cpu : Cpu) (m : Memory) : Cpu × Memory :=
  let arg1 := read_u8 m ((cpu.pc + 1) % 65536)
  let arg2 := read_u8 m ((cpu.pc + 2) % 65536)
  let cpu :=
    match cpu.current_opcode with
    | 0xa2 => { cpu with x := arg1, tick_count := cpu.tick_count + 2, pc := (cpu.pc + 2) % 65536 }
    | 0xa6 => { cpu with x := zero_page cpu m arg1, tick_count := cpu.tick_count + 3, pc := (cpu.pc + 2) % 65536 }
    | 0xb6 => { cpu with x := zero_page_y cpu m arg1, tick_count := cpu.tick_count + 4, pc := (cpu.pc + 2) % 65536 }
    | 0xae => { cpu with x := absolute cpu m arg1 arg2, tick_count := cpu.tick_count + 4, pc := (cpu.pc + 3) % 65536 }
    | 0xbe =>
      let r := absolute_y cpu m arg1 arg2 true
      { r.1 with x := r.2, tick_count := r.1.tick_count + 4, pc := (r.1.pc + 3) % 65536 }
    | _ => cpu
  ({ cpu with zero := decide (cpu.x = 0), sign := decide (128 ≤ cpu.x % 256) }, m)

/-- `ldy` of cpu.rs. -/
def ldy (cpu : Cpu) (m : Memory) : Cpu × Memory :=
  let arg1 := read_u8 m ((cpu.pc + 1) % 65536)
  let arg2 := read_u8 m ((cpu.pc + 2) % 65536)
  let cpu :=
    match cpu.current_opcode with
    | 0xa0 => { cpu with y := arg1, tick_count := cpu.tick_count + 2, pc := (cpu.pc + 2) % 65536 }
    | 0xa4 => { cpu with y := zero_page cpu m arg1, tick_count := cpu.tick_count + 3, pc := (cpu.pc + 2) % 65536 }
    | 0xb4 => { cpu with y := zero_page_x cpu m arg1, tick_count := cpu.tick_count + 4, pc := (cpu.pc + 2) % 65536 }
    | 0xac => { cpu with y := absolute cpu m arg1 arg2, tick_count := cpu.tick_count + 4, pc := (cpu.pc + 3) % 65536 }
    | 0xbc =>
      let r := absolute_x cpu m arg1 arg2 true
      { r.1 with y := r.2, tick_count := r.1.tick_count + 4, pc := (r.1.pc + 3) % 65536 }
    | _ => cpu
  ({ cpu with zero := decide (cpu.y = 0), sign := decide (128 ≤ cpu.y % 256) }, m)

/-- `lsr` of cpu.rs: note the source derives the carry from bit 0 of the
accumulator (`self.a & 0x1`) for every addressing mode, not from the value
being shifted. -/
def lsr (cpu : Cpu) (m : Memory) : Cpu × Memory :=
  let arg1 := read_u8 m ((cpu.pc + 1) % 65536)
  let arg2 := read_u8 m ((cpu.pc + 2) % 65536)
  let op := cpu.current_opcode
  let av : Cpu × Nat :=
    match op with
    | 0x4a => (cpu, cpu.a)
    | 0x46 => (cpu, zero_page cpu m arg1)
    | 0x56 => (cpu, zero_page_x cpu m arg1)
    | 0x4e => (cpu, absolute cpu m arg1 arg2)
    | 0x5e => absolute_x cpu m arg1 arg2 true
    | _ => (cpu, 0)
  let cpu := av.1
  let cpu := { cpu with carry := decide (cpu.a % 2 = 1) }
  let value := av.2 / 2
  let cpu := { cpu with
    zero := decide (value = 0),
    sign := decide (128 ≤ value % 256) }
  match op with
  | 0x4a => ({ cpu with a := value, tick_count := cpu.tick_count + 2, pc := (cpu.pc + 1) % 65536 }, m)
  | 0x46 => ({ cpu with tick_count := cpu.tick_count + 5, pc := (cpu.pc + 2) % 65536 },
             zero_page_write cpu m arg1 value)
  | 0x56 => ({ cpu with tick_count := cpu.tick_count + 6, pc := (cpu.pc + 2) % 65536 },
             zero_page_x_write cpu m arg1 value)
  | 0x4e => ({ cpu with tick_count := cpu.tick_count + 6, pc := (cpu.pc + 3) % 65536 },
             absolute_write cpu m arg1 arg2 value)
  | 0x5e => ({ cpu with tick_count := cpu.tick_count + 7, pc := (cpu.pc + 3) % 65536 },
             absolute_x_write cpu m arg1 arg2 value)
  | _ => (cpu, m)

/-- `nop` of cpu.rs: advances the program counter by 1 and charges 1 tick. -/
def nop (cpu : Cpu) : Cpu :=
  { cpu with pc := (cpu.pc + 1) % 65536, tick_count := cpu.tick_count + 1 }

/-- `ora` of cpu.rs. -/
def ora (cpu : Cpu) (m : Memory) : Cpu × Memory :=
  let arg1 := read_u8 m ((cpu.pc + 1) % 65536)
  let arg2 := read_u8 m ((cpu.pc + 2) % 65536)
  let op := cpu.current_opcode
  let av : Cpu × Nat :=
    match op with
    | 0x09 => (cpu, arg1)
    | 0x05 => (cpu, zero_page cpu m arg1)
    | 0x15 => (cpu, zero_page_x cpu m arg1)
    | 0x0d => (cpu, absolute cpu m arg1 arg2)
    | 0x1d => absolute_x cpu m arg1 arg2 true
    | 0x19 => absolute_y cpu m arg1 arg2 true
    | 0x01 => (cpu, indirect_x cpu m arg1)
    | 0x11 => indirect_y cpu m arg1 true
    | _ => (cpu, 0)
  let cpu := av.1
  let cpu := { cpu with a := cpu.a ||| av.2 }
  let cpu := { cpu with
    zero := decide (cpu.a % 256 = 0),
    sign := decide (128 ≤ cpu.a % 256) }
  match op with
  | 0x09 => ({ cpu with tick_count := cpu.tick_count + 2, pc := (cpu.pc + 2) % 65536 }, m)
  | 0x05 => ({ cpu with tick_count := cpu.tick_count + 3, pc := (cpu.pc + 2) % 65536 }, m)
  | 0x15 => ({ cpu with tick_count := cpu.tick_count + 4, pc := (cpu.pc + 2) % 65536 }, m)
  | 0x0d => ({ cpu with tick_count := cpu.tick_count + 4, pc := (cpu.pc + 3) % 65536 }, m)
  | 0x1d => ({ cpu with tick_count := cpu.tick_count + 4, pc := (cpu.pc + 3) % 65536 }, m)
  | 0x19 => ({ cpu with tick_count := cpu.tick_count + 4, pc := (cpu.pc + 3) % 65536 }, m)
  | 0x01 => ({ cpu with tick_count := cpu.tick_count + 6, pc := (cpu.pc + 2) % 65536 }, m)
  | 0x11 => ({ cpu with tick_count := cpu.tick_count + 5, pc := (cpu.pc + 2) % 65536 }, m)
  | _ => (cpu, m)

/-- `pha` of cpu.rs. -/
def pha (cpu : Cpu) (m : Memory) : Cpu × Memory :=
  let r := push_u8 cpu m cpu.a
  ({ r.1 with pc := (r.1.pc + 1) % 65536, tick_count := r.1.tick_count + 3 }, r.2)

/-- `php` of cpu.rs. -/
def php (cpu : Cpu) (m : Memory) : Cpu × Memory :=
  let r := push_status cpu m
  ({ r.1 with pc := (r.1.pc + 1) % 65536, tick_count := r.1.tick_count + 3 }, r.2)

/-- `pla` of cpu.rs. -/
def pla (cpu : Cpu) (m : Memory) : Cpu × Memory :=
  let r := pull_u8 cpu m
  let cpu := { r.1 with a := r.2 }
  ({ cpu with
    zero := decide (cpu.a = 0), sign := decide (128 ≤ cpu.a % 256),
    pc := (cpu.pc + 1) % 65536, tick_count := cpu.tick_count + 4 }, m)

/-- `plp` of cpu.rs. -/
def plp (cpu : Cpu) (m : Memory) : Cpu × Memory :=
  let cpu := pull_status cpu m
  ({ cpu with pc := (cpu.pc + 1) % 65536, tick_count := cpu.tick_count + 4 }, m)

/-- `rol` of cpu.rs: note opcode 0x3e resolves through `absolute_x` with
`check_page` false. -/
def rol (cpu : Cpu) (m : Memory) : Cpu × Memory :=
  let arg1 := read_u8 m ((cpu.pc + 1) % 65536)
  let arg2 := read_u8 m ((cpu.pc + 2) % 65536)
  let op := cpu.current_opcode
  let av : Cpu × Nat :=
    match op with
    | 0x2a => (cpu, cpu.a)
    | 0x26 => (cpu, zero_page cpu m arg1)
    | 0x36 => (cpu, zero_page_x cpu m arg1)
    | 0x2e => (cpu, absolute cpu m arg1 arg2)
    | 0x3e => absolute_x cpu m arg1 arg2 false
    | _ => (cpu, 0)
  let cpu := av.1
  let b := decide (128 ≤ av.2 % 256)
  let value := av.2 % 128 * 2 + (if cpu.carry then 1 else 0)
  let cpu := { cpu with carry := b }
  let cpu := { cpu with
    zero := decide (value = 0),
    sign := decide (128 ≤ value % 256) }
  match op with
  | 0x2a => ({ cpu with a := value, tick_count := cpu.tick_count + 2, pc := (cpu.pc + 1) % 65536 }, m)
  | 0x26 => ({ cpu with tick_count := cpu.tick_count + 5, pc := (cpu.pc + 2) % 65536 },
             zero_page_write cpu m arg1 value)
  | 0x36 => ({ cpu with tick_count := cpu.tick_count + 6, pc := (cpu.pc + 2) % 65536 },
             zero_page_x_write cpu m arg1 value)
  | 0x2e => ({ cpu with tick_count := cpu.tick_count + 6, pc := (cpu.pc + 3) % 65536 },
             absolute_write cpu m arg1 arg2 value)
  | 0x3e => ({ cpu with tick_count := cpu.tick_count + 7, pc := (cpu.pc + 3) % 65536 },
             absolute_x_write cpu m arg1 arg2 value)
  | _ => (cpu, m)

/-- `ror` of cpu.rs. -/
def ror (cpu : Cpu) (m : Memory) : Cpu × Memory :=
  let arg1 := read_u8 m ((cpu.pc + 1) % 65536)
  let arg2 := read_u8 m ((cpu.pc + 2) % 65536)
  let op := cpu.current_opcode
  let av : Cpu × Nat :=
    match op with
    | 0x6a => (cpu, cpu.a)
    | 0x66 => (cpu, zero_page cpu m arg1)
    | 0x76 => (cpu, zero_page_x cpu m arg1)
    | 0x6e => (cpu, absolute cpu m arg1 arg2)
    | 0x7e => absolute_x cpu m arg1 arg2 true
    | _ => (cpu, 0)
  let cpu := av.1
  let b := decide (av.2 % 2 = 1)
  let value := av.2 / 2 + (if cpu.carry then 0x80 else 0)
  let cpu := { cpu with carry := b }
  let cpu := { cpu with
    zero := decide (value = 0),
    sign := decide (128 ≤ value % 256) }
  match op with
  | 0x6a => ({ cpu with a := value, tick_count := cpu.tick_count + 2, pc := (cpu.pc + 1) % 65536 }, m)
  | 0x66 => ({ cpu with tick_count := cpu.tick_count + 5, pc := (cpu.pc + 2) % 65536 },
             zero_page_write cpu m arg1 value)
  | 0x76 => ({ cpu with tick_count := cpu.tick_count + 6, pc := (cpu.pc + 2) % 65536 },
             zero_page_x_write cpu m arg1 value)
  | 0x6e => ({ cpu with tick_count := cpu.tick_count + 6, pc := (cpu.pc + 3) % 65536 },
             absolute_write cpu m arg1 arg2 value)
  | 0x7e => ({ cpu with tick_count := cpu.tick_count + 7, pc := (cpu.pc + 3) % 65536 },
             absolute_x_write cpu m arg1 arg2 value)
  | _ => (cpu, m)

/-- `rti` of cpu.rs: pulls status, then pulls the program counter verbatim. -/
def rti (cpu : Cpu) (m : Memory) : Cpu × Memory :=
  let cpu := pull_status cpu m
  let r := pull_u16 cpu m
  ({ r.1 with pc := r.2, tick_count := r.1.tick_count + 6 }, m)

/-- `rts` of cpu.rs: pulls the program counter and adds 1. -/
def rts (cpu : Cpu) (m : Memory) : Cpu × Memory :=
  let r := pull_u16 cpu m
  ({ r.1 with pc := (r.2 + 1) % 65536, tick_count := r.1.tick_count + 6 }, m)

/-- `sbc` of cpu.rs: the signed intermediate is
`a - value - (if carry then 1 else 0)` — the source subtracts the carry
bit itself, not the borrow `1 - carry`. -/
def sbc (cpu : Cpu) (m : Memory) : Cpu × Memory :=
  let arg1 := read_u8 m ((cpu.pc + 1) % 65536)
  let arg2 := read_u8 m ((cpu.pc + 2) % 65536)
  let op := cpu.current_opcode
  let av : Cpu × Nat :=
    match op with
    | 0xe9 => (cpu, arg1)
    | 0xe5 => (cpu, zero_page cpu m arg1)
    | 0xf5 => (cpu, zero_page_x cpu m arg1)
    | 0xed => (cpu, absolute cpu m arg1 arg2)
    | 0xfd => absolute_x cpu m arg1 arg2 true
    | 0xf9 => absolute_y cpu m arg1 arg2 true
    | 0xe1 => (cpu, indirect_x cpu m arg1)
    | 0xf1 => indirect_y cpu m arg1 true
    | _ => (cpu, 0)
  let cpu := av.1
  let total : Int := (cpu.a : Int) - (av.2 : Int) - (if cpu.carry then 1 else 0)
  let cpu := { cpu with
    carry := decide (0 ≤ total),
    overflow := decide (total < 0),
    zero := decide (total % 256 = 0),
    sign := decide (128 ≤ total % 256),
    a := (total % 256).toNat }
  match op with
  | 0xe9 => ({ cpu with tick_count := cpu.tick_count + 2, pc := (cpu.pc + 2) % 65536 }, m)
  | 0xe5 => ({ cpu with tick_count := cpu.tick_count + 3, pc := (cpu.pc + 2) % 65536 }, m)
  | 0xf5 => ({ cpu with tick_count := cpu.tick_count + 4, pc := (cpu.pc + 2) % 65536 }, m)
  | 0xed => ({ cpu with tick_count := cpu.tick_count + 4, pc := (cpu.pc + 3) % 65536 }, m)
  | 0xfd => ({ cpu with tick_count := cpu.tick_count + 4, pc := (cpu.pc + 3) % 65536 }, m)
  | 0xf9 => ({ cpu with tick_count := cpu.tick_count + 4, pc := (cpu.pc + 3) % 65536 }, m)
  | 0xe1 => ({ cpu with tick_count := cpu.tick_count + 6, pc := (cpu.pc + 2) % 65536 }, m)
  | 0xf1 => ({ cpu with tick_count := cpu.tick_count + 5, pc := (cpu.pc + 2) % 65536 }, m)
  | _ => (cpu, m)

/-- `sec` of cpu.rs. -/
def sec (cpu : Cpu) : Cpu :=
  { cpu with carry := true, tick_count := cpu.tick_count + 2, pc := (cpu.pc + 1) % 65536 }

/-- `sed` of cpu.rs. -/
def sed (cpu : Cpu) : Cpu :=
  { cpu with decimal := true, tick_count := cpu.tick_count + 2, pc := (cpu.pc + 1) % 65536 }

/-- `sei` of cpu.rs. -/
def sei (cpu : Cpu) : Cpu :=
  { cpu with interrupt := true, tick_count := cpu.tick_count + 2, pc := (cpu.pc + 1) % 65536 }

/-- `sta` of cpu.rs. -/
def sta (cpu : Cpu) (m : Memory) : Cpu × Memory :=
  let arg1 := read_u8 m ((cpu.pc + 1) % 65536)
  let arg2 := read_u8 m ((cpu.pc + 2) % 65536)
  match cpu.current_opcode with
  | 0x85 => ({ cpu with tick_count := cpu.tick_count + 3, pc := (cpu.pc + 2) % 65536 },
             zero_page_write cpu m arg1 cpu.a)
  | 0x95 => ({ cpu with tick_count := cpu.tick_count + 4, pc := (cpu.pc + 2) % 65536 },
             zero_page_x_write cpu m arg1 cpu.a)
  | 0x8d => ({ cpu with tick_count := cpu.tick_count + 4, pc := (cpu.pc + 3) % 65536 },
             absolute_write cpu m arg1 arg2 cpu.a)
  | 0x9d => ({ cpu with tick_count := cpu.tick_count + 5, pc := (cpu.pc + 3) % 65536 },
             absolute_x_write cpu m arg1 arg2 cpu.a)
  | 0x99 => ({ cpu with tick_count := cpu.tick_count + 5, pc := (cpu.pc + 3) % 65536 },
             absolute_y_write cpu m arg1 arg2 cpu.a)
  | 0x81 => ({ cpu with tick_count := cpu.tick_count + 6, pc := (cpu.pc + 2) % 65536 },
             indirect_x_write cpu m arg1 cpu.a)
  | 0x91 => ({ cpu with tick_count := cpu.tick_count + 6, pc := (cpu.pc + 2) % 65536 },
             indirect_y_write cpu m arg1 cpu.a)
  | _ => (cpu, m)

/-- `stx` of cpu.rs. -/
def stx (cpu : Cpu) (m : Memory) : Cpu × Memory :=
  let arg1 := read_u8 m ((cpu.pc + 1) % 65536)
  let arg2 := read_u8 m ((cpu.pc + 2) % 65536)
  match cpu.current_opcode with
  | 0x86 => ({ cpu with tick_count := cpu.tick_count + 3, pc := (cpu.pc + 2) % 65536 },
             zero_page_write cpu m arg1 cpu.x)
  | 0x96 => ({ cpu with tick_count := cpu.tick_count + 4, pc := (cpu.pc + 2) % 65536 },
             zero_page_y_write cpu m arg1 cpu.x)
  | 0x8e => ({ cpu with tick_count := cpu.tick_count + 4, pc := (cpu.pc + 3) % 65536 },
             absolute_write cpu m arg1 arg2 cpu.x)
  | _ => (cpu, m)

/-- `sty` of cpu.rs. -/
def sty (cpu : Cpu) (m : Memory) : Cpu × Memory :=
  let arg1 := read_u8 m ((cpu.pc + 1) % 65536)
  let arg2 := read_u8 m ((cpu.pc + 2) % 65536)
  match cpu.current_opcode with
  | 0x84 => ({ cpu with tick_count := cpu.tick_count + 3, pc := (cpu.pc + 2) % 65536 },
             zero_page_write cpu m arg1 cpu.y)
  | 0x94 => ({ cpu with tick_count := cpu.tick_count + 4, pc := (cpu.pc + 2) % 65536 },
             zero_page_x_write cpu m arg1 cpu.y)
  | 0x8c => ({ cpu with tick_count := cpu.tick_count + 4, pc := (cpu.pc + 3) % 65536 },
             absolute_write cpu m arg1 arg2 cpu.y)
  | _ => (cpu, m)

/-- `tax` of cpu.rs. -/
def tax (cpu : Cpu) : Cpu :=
  let cpu := { cpu with x := cpu.a }
  { cpu with
    zero := decide (cpu.x = 0), sign := decide (128 ≤ cpu.x % 256),
    pc := (cpu.pc + 1) % 65536, tick_count := cpu.tick_count + 2 }

/-- `tay` of cpu.rs. -/
def tay (cpu : Cpu) : Cpu :=
  let cpu := { cpu with y := cpu.a }
  { cpu with
    zero := decide (cpu.y = 0), sign := decide (128 ≤ cpu.y % 256),
    pc := (cpu.pc + 1) % 65536, tick_count := cpu.tick_count + 2 }

/-- `tsx` of cpu.rs. -/
def tsx (cpu : Cpu) : Cpu :=
  let cpu := { cpu with x := cpu.sp }
  { cpu with
    zero := decide (cpu.x = 0), sign := decide (128 ≤ cpu.x % 256),
    pc := (cpu.pc + 1) % 65536, tick_count := cpu.tick_count + 2 }

/-- `txa` of cpu.rs. -/
def txa (cpu : Cpu) : Cpu :=
  let cpu := { cpu with a := cpu.x }
  { cpu with
    zero := decide (cpu.a = 0), sign := decide (128 ≤ cpu.a % 256),
    pc := (cpu.pc + 1) % 65536, tick_count := cpu.tick_count + 2 }

/-- `txs` of cpu.rs: no flag updates. -/
def txs (cpu : Cpu) : Cpu :=
  { cpu with sp := cpu.x, pc := (cpu.pc + 1) % 65536, tick_count := cpu.tick_count + 2 }

/-- `tya` of cpu.rs. -/
def tya (cpu : Cpu) : Cpu :=
  let cpu := { cpu with a := cpu.y }
  { cpu with
    zero := decide (cpu.a = 0), sign := decide (128 ≤ cpu.a % 256),
    pc := (cpu.pc + 1) % 65536, tick_count := cpu.tick_count + 2 }

/-- `reset` of cpu.rs: loads the program counter from the reset vector at
0xfffc, touching nothing else. -/
def reset (cpu : Cpu) (m : Memory) : Cpu :=
  { cpu with pc := read_u16 m 0xfffc }

/-- the opcode dispatch match of `fetch_and_execute` in cpu.rs, represented
as a lookup keyed by the high and low nibble of the opcode byte: each arm
of the source match maps its opcode byte to the handler it calls, and the
default arm (which only prints a diagnostic) maps to `none`. -/
def lookupHandler (op : Nat) : Option (Cpu → Memory → Cpu × Memory) :=
  match op / 16 with
  | 0x0 =>
    match op % 16 with
    | 0x0 => some brk
    | 0x1 => some ora
    | 0x5 => some ora
    | 0x6 => some asl
    | 0x8 => some php
    | 0x9 => some ora
    | 0xa => some asl
    | 0xd => some ora
    | 0xe => some asl
    | _ => none
  | 0x1 =>
    match op % 16 with
    | 0x0 => some bpl
    | 0x1 => some ora
    | 0x5 => some ora
    | 0x6 => some asl
    | 0x8 => some (fun cpu m => (clc cpu, m))
    | 0x9 => some ora
    | 0xd => some ora
    | 0xe => some asl
    | _ => none
  | 0x2 =>
    match op % 16 with
    | 0x0 => some jsr
    | 0x1 => some and
    | 0x4 => some bit
    | 0x5 => some and
    | 0x6 => some rol
    | 0x8 => some plp
    | 0x9 => some and
    | 0xa => some rol
    | 0xc => some bit
    | 0xd => some and
    | 0xe => some rol
    | _ => none
  | 0x3 =>
    match op % 16 with
    | 0x0 => some bmi
    | 0x1 => some and
    | 0x2 => some (fun cpu m => (nop cpu, m))
    | 0x3 => some (fun cpu m => (nop cpu, m))
    | 0x4 => some (fun cpu m => (nop cpu, m))
    | 0x5 => some and
    | 0x6 => some rol
    | 0x8 => some (fun cpu m => (sec cpu, m))
    | 0x9 => some and
    | 0xd => some and
    | 0xe => some rol
    | _ => none
  | 0x4 =>
    match op % 16 with
    | 0x0 => some rti
    | 0x1 => some eor
    | 0x5 => some eor
    | 0x6 => some lsr
    | 0x8 => some pha
    | 0x9 => some eor
    | 0xa => some lsr
    | 0xc => some jmp
    | 0xd => some eor
    | 0xe => some lsr
    | _ => none
  | 0x5 =>
    match op % 16 with
    | 0x0 => some bvc
    | 0x1 => some eor
    | 0x5 => some eor
    | 0x6 => some lsr
    | 0x8 => some (fun cpu m => (cli cpu, m))
    | 0x9 => some eor
    | 0xd => some eor
    | 0xe => some lsr
    | _ => none
  | 0x6 =>
    match op % 16 with
    | 0x0 => some rts
    | 0x1 => some adc
    | 0x5 => some adc
    | 0x6 => some ror
    | 0x8 => some pla
    | 0x9 => some adc
    | 0xa => some ror
    | 0xc => some jmp
    | 0xd => some adc
    | 0xe => some ror
    | _ => none
  | 0x7 =>
    match op % 16 with
    | 0x0 => some bvs
    | 0x1 => some adc
    | 0x5 => some adc
    | 0x6 => some ror
    | 0x8 => some (fun cpu m => (sei cpu, m))
    | 0x9 => some adc
    | 0xd => some adc
    | 0xe => some ror
    | _ => none
  | 0x8 =>
    match op % 16 with
    | 0x1 => some sta
    | 0x4 => some sty
    | 0x5 => some sta
    | 0x6 => some stx
    | 0x8 => some (fun cpu m => (dey cpu, m))
    | 0xa => some (fun cpu m => (txa cpu, m))
    | 0xc => some sty
    | 0xd => some sta
    | 0xe => some stx
    | _ => none
  | 0x9 =>
    match op % 16 with
    | 0x0 => some bcc
    | 0x1 => some sta
    | 0x4 => some sty
    | 0x5 => some sta
    | 0x6 => some stx
    | 0x8 => some (fun cpu m => (tya cpu, m))
    | 0x9 => some sta
    | 0xa => some (fun cpu m => (txs cpu, m))
    | 0xd => some sta
    | _ => none
  | 0xa =>
    match op % 16 with
    | 0x0 => some ldy
    | 0x1 => some lda
    | 0x2 => some ldx
    | 0x4 => some ldy
    | 0x5 => some lda
    | 0x6 => some ldx
    | 0x8 => some (fun cpu m => (tay cpu, m))
    | 0x9 => some lda
    | 0xa => some (fun cpu m => (tax cpu, m))
    | 0xc => some ldy
    | 0xd => some lda
    | 0xe => some ldx
    | _ => none
  | 0xb =>
    match op % 16 with
    | 0x0 => some bcs
    | 0x1 => some lda
    | 0x4 => some ldy
    | 0x5 => some lda
    | 0x6 => some ldx
    | 0x8 => some (fun cpu m => (clv cpu, m))
    | 0x9 => some lda
    | 0xa => some (fun cpu m => (tsx cpu, m))
    | 0xc => some ldy
    | 0xd => some lda
    | 0xe => some ldx
    | _ => none
  | 0xc =>
    match op % 16 with
    | 0x0 => some cpy
    | 0x1 => some cmp
    | 0x4 => some cpy
    | 0x5 => some cmp
    | 0x6 => some dec
    | 0x8 => some (fun cpu m => (iny cpu, m))
    | 0x9 => some cmp
    | 0xa => some (fun cpu m => (dex cpu, m))
    | 0xc => some cpy
    | 0xd => some cmp
    | 0xe => some dec
    | _ => none
  | 0xd =>
    match op % 16 with
    | 0x0 => some bne
    | 0x1 => some cmp
    | 0x5 => some cmp
    | 0x6 => some dec
    | 0x8 => some (fun cpu m => (cld cpu, m))
    | 0x9 => some cmp
    | 0xd => some cmp
    | 0xe => some dec
    | _ => none
  | 0xe =>
    match op % 16 with
    | 0x0 => some cpx
    | 0x1 => some sbc
    | 0x4 => some cpx
    | 0x5 => some sbc
    | 0x6 => some inc
    | 0x8 => some (fun cpu m => (inx cpu, m))
    | 0x9 => some sbc
    | 0xc => some cpx
    | 0xd => some sbc
    | 0xe => some inc
    | _ => none
  | 0xf =>
    match op % 16 with
    | 0x0 => some beq
    | 0x1 => some sbc
    | 0x5 => some sbc
    | 0x6 => some inc
    | 0x8 => some (fun cpu m => (sed cpu, m))
    | 0x9 => some sbc
    | 0xd => some sbc
    | 0xe => some inc
    | _ => none
  | _ => none

/-- `fetch_and_execute` of cpu.rs: fetch the opcode byte at the program
counter into `current_opcode`, then dispatch; on the default arm (an
unsupported opcode) only the diagnostic is printed and the state is left
as is. -/
def fetch_and_execute (cpu : Cpu) (m : Memory) : Cpu × Memory :=
  let cpu := { cpu with current_opcode := read_u8 m cpu.pc }
  match lookupHandler cpu.current_opcode with
  | some h => h cpu m
  | none => (cpu, m)

/-- the `while` loop of `run_until_condition` in cpu.rs, with the external
constant `TICKS_PER_SCANLINE` as the parameter `budget` (modelled from the
spec: the per-scanline tick budget lives in the external `nes` module) and
an explicit `fuel` bound on the number of iterations; `none` in the result
means the fuel ran out while the source loop would still be running
(with an unsupported opcode the source loop never terminates, since
neither the tick counter nor the program counter changes). -/
def run_until_go (budget start fuel : Nat) (cpu : Cpu) (m : Memory)
    (break_cond : BreakCondition) : Cpu × Memory × Option Bool :=
  if cpu.tick_count < budget then
    match fuel with
    | 0 => (cpu, m, none)
    | Nat.succ fuel =>
      let r := fetch_and_execute cpu m
      match break_cond with
      | BreakCondition.RunToPc pc =>
        if r.1.pc = pc then (r.1, r.2, some true)
        else run_until_go budget start fuel r.1 r.2 break_cond
      | BreakCondition.RunNext =>
        if r.1.tick_count ≠ start then (r.1, r.2, some true)
        else run_until_go budget start fuel r.1 r.2 break_cond
      | BreakCondition.RunToScanline =>
        if budget ≤ r.1.tick_count then (r.1, r.2, some true)
        else run_until_go budget start fuel r.1 r.2 break_cond
      | BreakCondition.RunFrame =>
        run_until_go budget start fuel r.1 r.2 break_cond
  else (cpu, m, some false)

/-- `run_until_condition` of cpu.rs: record the tick counter at entry and
run the loop. -/
def run_until_condition (budget fuel : Nat) (cpu : Cpu) (m : Memory)
    (break_cond : BreakCondition) : Cpu × Memory × Option Bool :=
  run_until_go budget cpu.tick_count fuel cpu m break_cond

/-! Tick-count lemmas: every handler of the dispatch table strictly
increases `tick_count` (for the opcodes that can reach it). -/

lemma adc_tick (cpu : Cpu) (m : Memory)
    (h : cpu.current_opcode = 0x69 ∨ cpu.current_opcode = 0x65 ∨
         cpu.current_opcode = 0x75 ∨ cpu.current_opcode = 0x6d ∨
         cpu.current_opcode = 0x7d ∨ cpu.current_opcode = 0x79 ∨
         cpu.current_opcode = 0x61 ∨ cpu.current_opcode = 0x71) :
    cpu.tick_count < (adc cpu m).1.tick_count := by
  rcases h with h|h|h|h|h|h|h|h <;>
    (simp only [adc, absolute_x, absolute_y, indirect_x, indirect_y, zero_page,
      zero_page_x, zero_page_y, absolute, h]
     repeat' split) <;>
    simp <;> omega

lemma and_tick (cpu : Cpu) (m : Memory)
    (h : cpu.current_opcode = 0x29 ∨ cpu.current_opcode = 0x25 ∨
         cpu.current_opcode = 0x35 ∨ cpu.current_opcode = 0x2d ∨
         cpu.current_opcode = 0x3d ∨ cpu.current_opcode = 0x39 ∨
         cpu.current_opcode = 0x21 ∨ cpu.current_opcode = 0x31) :
    cpu.tick_count < (and cpu m).1.tick_count := by
  rcases h with h|h|h|h|h|h|h|h <;>
    (simp only [and, absolute_x, absolute_y, indirect_x, indirect_y, zero_page,
      zero_page_x, zero_page_y, absolute, h]
     repeat' split) <;>
    simp <;> omega

lemma asl_tick (cpu : Cpu) (m : Memory)
    (h : cpu.current_opcode = 0x0a ∨ cpu.current_opcode = 0x06 ∨
         cpu.current_opcode = 0x16 ∨ cpu.current_opcode = 0x0e ∨
         cpu.current_opcode = 0x1e) :
    cpu.tick_count < (asl cpu m).1.tick_count := by
  rcases h with h|h|h|h|h <;>
    (simp only [asl, absolute_x, zero_page, zero_page_x, absolute, h]
     repeat' split) <;>
    simp <;> omega

lemma bit_tick (cpu : Cpu) (m : Memory)
    (h : cpu.current_opcode = 0x24 ∨ cpu.current_opcode = 0x2c) :
    cpu.tick_count < (bit cpu m).1.tick_count := by
  rcases h with h|h <;>
    (simp only [bit, zero_page, absolute, h]
     repeat' split) <;>
    simp <;> omega

lemma cmp_tick (cpu : Cpu) (m : Memory)
    (h : cpu.current_opcode = 0xc9 ∨ cpu.current_opcode = 0xc5 ∨
         cpu.current_opcode = 0xd5 ∨ cpu.current_opcode = 0xcd ∨
         cpu.current_opcode = 0xdd ∨ cpu.current_opcode = 0xd9 ∨
         cpu.current_opcode = 0xc1 ∨ cpu.current_opcode = 0xd1) :
    cpu.tick_count < (cmp cpu m).1.tick_count := by
  rcases h with h|h|h|h|h|h|h|h <;>
    (simp only [cmp, absolute_x, absolute_y, indirect_x, indirect_y, zero_page,
      zero_page_x, zero_page_y, absolute, h]
     repeat' split) <;>
    simp <;> omega

lemma cpx_tick (cpu : Cpu) (m : Memory)
    (h : cpu.current_opcode = 0xe0 ∨ cpu.current_opcode = 0xe4 ∨
         cpu.current_opcode = 0xec) :
    cpu.tick_count < (cpx cpu m).1.tick_count := by
  rcases h with h|h|h <;>
    (simp only [cpx, zero_page, absolute, h]
     repeat' split) <;>
    simp <;> omega

lemma cpy_tick (cpu : Cpu) (m : Memory)
    (h : cpu.current_opcode = 0xc0 ∨ cpu.current_opcode = 0xc4 ∨
         cpu.current_opcode = 0xcc) :
    cpu.tick_count < (cpy cpu m).1.tick_count := by
  rcases h with h|h|h <;>
    (simp only [cpy, zero_page, absolute, h]
     repeat' split) <;>
    simp <;> omega

lemma dec_tick (cpu : Cpu) (m : Memory)
    (h : cpu.current_opcode = 0xc6 ∨ cpu.current_opcode = 0xd6 ∨
         cpu.current_opcode = 0xce ∨ cpu.current_opcode = 0xde) :
    cpu.tick_count < (dec cpu m).1.tick_count := by
  rcases h with h|h|h|h <;>
    (simp only [dec, absolute_x, zero_page, zero_page_x, absolute, h]
     repeat' split) <;>
    simp <;> omega

lemma eor_tick (cpu : Cpu) (m : Memory)
    (h : cpu.current_opcode = 0x49 ∨ cpu.current_opcode = 0x45 ∨
         cpu.current_opcode = 0x55 ∨ cpu.current_opcode = 0x4d ∨
         cpu.current_opcode = 0x5d ∨ cpu.current_opcode = 0x59 ∨
         cpu.current_opcode = 0x41 ∨ cpu.current_opcode = 0x51) :
    cpu.tick_count < (eor cpu m).1.tick_count := by
  rcases h with h|h|h|h|h|h|h|h <;>
    (simp only [eor, absolute_x, absolute_y, indirect_x, indirect_y, zero_page,
      zero_page_x, zero_page_y, absolute, h]
     repeat' split) <;>
    simp <;> omega

lemma inc_tick (cpu : Cpu) (m : Memory)
    (h : cpu.current_opcode = 0xe6 ∨ cpu.current_opcode = 0xf6 ∨
         cpu.current_opcode = 0xee ∨ cpu.current_opcode = 0xfe) :
    cpu.tick_count < (inc cpu m).1.tick_count := by
  rcases h with h|h|h|h <;>
    (simp only [inc, absolute_x, zero_page, zero_page_x, absolute, h]
     repeat' split) <;>
    simp <;> omega

lemma jmp_tick (cpu : Cpu) (m : Memory)
    (h : cpu.current_opcode = 0x4c ∨ cpu.current_opcode = 0x6c) :
    cpu.tick_count < (jmp cpu m).1.tick_count := by
  rcases h with h|h <;> simp only [jmp, h] <;> simp

lemma lda_tick (cpu : Cpu) (m : Memory)
    (h : cpu.current_opcode = 0xa9 ∨ cpu.current_opcode = 0xa5 ∨
         cpu.current_opcode = 0xb5 ∨ cpu.current_opcode = 0xad ∨
         cpu.current_opcode = 0xbd ∨ cpu.current_opcode = 0xb9 ∨
         cpu.current_opcode = 0xa1 ∨ cpu.current_opcode = 0xb1) :
    cpu.tick_count < (lda cpu m).1.tick_count := by
  rcases h with h|h|h|h|h|h|h|h <;>
    (simp only [lda, absolute_x, absolute_y, indirect_x, indirect_y, zero_page,
      zero_page_x, zero_page_y, absolute, h]
     repeat' split) <;>
    simp <;> omega

lemma ldx_tick (cpu : Cpu) (m : Memory)
    (h : cpu.current_opcode = 0xa2 ∨ cpu.current_opcode = 0xa6 ∨
         cpu.current_opcode = 0xb6 ∨ cpu.current_opcode = 0xae ∨
         cpu.current_opcode = 0xbe) :
    cpu.tick_count < (ldx cpu m).1.tick_count := by
  rcases h with h|h|h|h|h <;>
    (simp only [ldx, absolute_y, zero_page, zero_page_y, absolute, h]
     repeat' split) <;>
    simp <;> omega

lemma ldy_tick (cpu : Cpu) (m : Memory)
    (h : cpu.current_opcode = 0xa0 ∨ cpu.current_opcode = 0xa4 ∨
         cpu.current_opcode = 0xb4 ∨ cpu.current_opcode = 0xac ∨
         cpu.current_opcode = 0xbc) :
    cpu.tick_count < (ldy cpu m).1.tick_count := by
  rcases h with h|h|h|h|h <;>
    (simp only [ldy, absolute_x, zero_page, zero_page_x, absolute, h]
     repeat' split) <;>
    simp <;> omega

lemma lsr_tick (cpu : Cpu) (m : Memory)
    (h : cpu.current_opcode = 0x4a ∨ cpu.current_opcode = 0x46 ∨
         cpu.current_opcode = 0x56 ∨ cpu.current_opcode = 0x4e ∨
         cpu.current_opcode = 0x5e) :
    cpu.tick_count < (lsr cpu m).1.tick_count := by
  rcases h with h|h|h|h|h <;>
    (simp only [lsr, absolute_x, zero_page, zero_page_x, absolute, h]
     repeat' split) <;>
    simp <;> omega

lemma ora_tick (cpu : Cpu) (m : Memory)
    (h : cpu.current_opcode = 0x09 ∨ cpu.current_opcode = 0x05 ∨
         cpu.current_opcode = 0x15 ∨ cpu.current_opcode = 0x0d ∨
         cpu.current_opcode = 0x1d ∨ cpu.current_opcode = 0x19 ∨
         cpu.current_opcode = 0x01 ∨ cpu.current_opcode = 0x11) :
    cpu.tick_count < (ora cpu m).1.tick_count := by
  rcases h with h|h|h|h|h|h|h|h <;>
    (simp only [ora, absolute_x, absolute_y, indirect_x, indirect_y, zero_page,
      zero_page_x, zero_page_y, absolute, h]
     repeat' split) <;>
    simp <;> omega

lemma rol_tick (cpu : Cpu) (m : Memory)
    (h : cpu.current_opcode = 0x2a ∨ cpu.current_opcode = 0x26 ∨
         cpu.current_opcode = 0x36 ∨ cpu.current_opcode = 0x2e ∨
         cpu.current_opcode = 0x3e) :
    cpu.tick_count < (rol cpu m).1.tick_count := by
  rcases h with h|h|h|h|h <;>
    (simp only [rol, absolute_x, zero_page, zero_page_x, absolute, h]
     repeat' split) <;>
    simp <;> omega

lemma ror_tick (cpu : Cpu) (m : Memory)
    (h : cpu.current_opcode = 0x6a ∨ cpu.current_opcode = 0x66 ∨
         cpu.current_opcode = 0x76 ∨ cpu.current_opcode = 0x6e ∨
         cpu.current_opcode = 0x7e) :
    cpu.tick_count < (ror cpu m).1.tick_count := by
  rcases h with h|h|h|h|h <;>
    (simp only [ror, absolute_x, zero_page, zero_page_x, absolute, h]
     repeat' split) <;>
    simp <;> omega

lemma sbc_tick (cpu : Cpu) (m : Memory)
    (h : cpu.current_opcode = 0xe9 ∨ cpu.current_opcode = 0xe5 ∨
         cpu.current_opcode = 0xf5 ∨ cpu.current_opcode = 0xed ∨
         cpu.current_opcode = 0xfd ∨ cpu.current_opcode = 0xf9 ∨
         cpu.current_opcode = 0xe1 ∨ cpu.current_opcode = 0xf1) :
    cpu.tick_count < (sbc cpu m).1.tick_count := by
  rcases h with h|h|h|h|h|h|h|h <;>
    (simp only [sbc, absolute_x, absolute_y, indirect_x, indirect_y, zero_page,
      zero_page_x, zero_page_y, absolute, h]
     repeat' split) <;>
    simp <;> omega

lemma sta_tick (cpu : Cpu) (m : Memory)
    (h : cpu.current_opcode = 0x85 ∨ cpu.current_opcode = 0x95 ∨
         cpu.current_opcode = 0x8d ∨ cpu.current_opcode = 0x9d ∨
         cpu.current_opcode = 0x99 ∨ cpu.current_opcode = 0x81 ∨
         cpu.current_opcode = 0x91) :
    cpu.tick_count < (sta cpu m).1.tick_count := by
  rcases h with h|h|h|h|h|h|h <;> simp only [sta, h] <;> simp

lemma stx_tick (cpu : Cpu) (m : Memory)
    (h : cpu.current_opcode = 0x86 ∨ cpu.current_opcode = 0x96 ∨
         cpu.current_opcode = 0x8e) :
    cpu.tick_count < (stx cpu m).1.tick_count := by
  rcases h with h|h|h <;> simp only [stx, h] <;> simp

lemma sty_tick (cpu : Cpu) (m : Memory)
    (h : cpu.current_opcode = 0x84 ∨ cpu.current_opcode = 0x94 ∨
         cpu.current_opcode = 0x8c) :
    cpu.tick_count < (sty cpu m).1.tick_count := by
  rcases h with h|h|h <;> simp only [sty, h] <;> simp

lemma bcc_tick (cpu : Cpu) (m : Memory) :
    cpu.tick_count < (bcc cpu m).1.tick_count := by
  simp only [bcc]
  repeat' split
  all_goals (try simp)
  all_goals omega

lemma bcs_tick (cpu : Cpu) (m : Memory) :
    cpu.tick_count < (bcs cpu m).1.tick_count := by
  simp only [bcs]
  repeat' split
  all_goals (try simp)
  all_goals omega

lemma beq_tick (cpu : Cpu) (m : Memory) :
    cpu.tick_count < (beq cpu m).1.tick_count := by
  simp only [beq]
  repeat' split
  all_goals (try simp)
  all_goals omega

lemma bmi_tick (cpu : Cpu) (m : Memory) :
    cpu.tick_count < (bmi cpu m).1.tick_count := by
  simp only [bmi]
  repeat' split
  all_goals (try simp)
  all_goals omega

lemma bne_tick (cpu : Cpu) (m : Memory) :
    cpu.tick_count < (bne cpu m).1.tick_count := by
  simp only [bne]
  repeat' split
  all_goals (try simp)
  all_goals omega

lemma bpl_tick (cpu : Cpu) (m : Memory) :
    cpu.tick_count < (bpl cpu m).1.tick_count := by
  simp only [bpl]
  repeat' split
  all_goals (try simp)
  all_goals omega

lemma bvc_tick (cpu : Cpu) (m : Memory) :
    cpu.tick_count < (bvc cpu m).1.tick_count := by
  simp only [bvc]
  repeat' split
  all_goals (try simp)
  all_goals omega

lemma bvs_tick (cpu : Cpu) (m : Memory) :
    cpu.tick_count < (bvs cpu m).1.tick_count := by
  simp only [bvs]
  repeat' split
  all_goals (try simp)
  all_goals omega

lemma brk_tick (cpu : Cpu) (m : Memory) :
    cpu.tick_count < (brk cpu m).1.tick_count := by
  simp only [brk, push_u16, push_u8, push_status]
  repeat' split
  all_goals (try simp)
  all_goals omega

lemma jsr_tick (cpu : Cpu) (m : Memory) :
    cpu.tick_count < (jsr cpu m).1.tick_count := by
  simp only [jsr, push_u16, push_u8]
  repeat' split
  all_goals (try simp)
  all_goals omega

lemma pha_tick (cpu : Cpu) (m : Memory) :
    cpu.tick_count < (pha cpu m).1.tick_count := by
  simp only [pha, push_u8]
  repeat' split
  all_goals (try simp)
  all_goals omega

lemma php_tick (cpu : Cpu) (m : Memory) :
    cpu.tick_count < (php cpu m).1.tick_count := by
  simp only [php, push_status, push_u8]
  repeat' split
  all_goals (try simp)
  all_goals omega

lemma pla_tick (cpu : Cpu) (m : Memory) :
    cpu.tick_count < (pla cpu m).1.tick_count := by
  simp only [pla, pull_u8]
  repeat' split
  all_goals (try simp)
  all_goals omega

lemma plp_tick (cpu : Cpu) (m : Memory) :
    cpu.tick_count < (plp cpu m).1.tick_count := by
  simp only [plp, pull_status, pull_u8]
  repeat' split
  all_goals (try simp)
  all_goals omega

lemma rti_tick (cpu : Cpu) (m : Memory) :
    cpu.tick_count < (rti cpu m).1.tick_count := by
  simp only [rti, pull_status, pull_u16, pull_u8]
  repeat' split
  all_goals (try simp)
  all_goals omega

lemma rts_tick (cpu : Cpu) (m : Memory) :
    cpu.tick_count < (rts cpu m).1.tick_count := by
  simp only [rts, pull_u16, pull_u8]
  repeat' split
  all_goals (try simp)
  all_goals omega

lemma clc_tick (cpu : Cpu) : cpu.tick_count < (clc cpu).tick_count := by simp [clc]

lemma cld_tick (cpu : Cpu) : cpu.tick_count < (cld cpu).tick_count := by simp [cld]

lemma cli_tick (cpu : Cpu) : cpu.tick_count < (cli cpu).tick_count := by simp [cli]

lemma clv_tick (cpu : Cpu) : cpu.tick_count < (clv cpu).tick_count := by simp [clv]

lemma sec_tick (cpu : Cpu) : cpu.tick_count < (sec cpu).tick_count := by simp [sec]

lemma sed_tick (cpu : Cpu) : cpu.tick_count < (sed cpu).tick_count := by simp [sed]

lemma sei_tick (cpu : Cpu) : cpu.tick_count < (sei cpu).tick_count := by simp [sei]

lemma dex_tick (cpu : Cpu) : cpu.tick_count < (dex cpu).tick_count := by simp [dex]

lemma dey_tick (cpu : Cpu) : cpu.tick_count < (dey cpu).tick_count := by simp [dey]

lemma inx_tick (cpu : Cpu) : cpu.tick_count < (inx cpu).tick_count := by simp [inx]

lemma iny_tick (cpu : Cpu) : cpu.tick_count < (iny cpu).tick_count := by simp [iny]

lemma tax_tick (cpu : Cpu) : cpu.tick_count < (tax cpu).tick_count := by simp [tax]

lemma tay_tick (cpu : Cpu) : cpu.tick_count < (tay cpu).tick_count := by simp [tay]

lemma tsx_tick (cpu : Cpu) : cpu.tick_count < (tsx cpu).tick_count := by simp [tsx]

lemma txa_tick (cpu : Cpu) : cpu.tick_count < (txa cpu).tick_count := by simp [txa]

lemma txs_tick (cpu : Cpu) : cpu.tick_count < (txs cpu).tick_count := by simp [txs]

lemma tya_tick (cpu : Cpu) : cpu.tick_count < (tya cpu).tick_count := by simp [tya]

lemma nop_tick (cpu : Cpu) : cpu.tick_count < (nop cpu).tick_count := by simp [nop]

lemma read_u8_lt (m : Memory) (addr : Nat) : read_u8 m addr < 256 :=
  Nat.mod_lt _ (by norm_num)

lemma fetch_unsupported (c : Cpu) (m : Memory)
    (hl : lookupHandler (read_u8 m c.pc) = none) :
    fetch_and_execute c m = ({ c with current_opcode := read_u8 m c.pc }, m) := by
  simp [fetch_and_execute, hl]

section

attribute [local irreducible] adc and asl bcc bcs beq bit bmi bne bpl brk bvc bvs clc cld cli clv cmp cpx cpy dec dex dey eor inc inx iny jmp jsr lda ldx ldy lsr nop ora pha php pla plp rol ror rti rts sbc sec sed sei sta stx sty tax tay tsx txa txs tya

lemma fetch_tick_lt (c : Cpu) (m : Memory)
    (h : (lookupHandler (read_u8 m c.pc)).isSome = true) :
    c.tick_count < (fetch_and_execute c m).1.tick_count := by
  simp only [fetch_and_execute]
  rcases hl : lookupHandler (read_u8 m c.pc) with _ | hdl
  · rw [hl] at h; simp at h
  · simp only [hl]
    clear h
    unfold lookupHandler at hl
    split at hl
    all_goals try split at hl
    all_goals
      first
        | exact Option.noConfusion hl
        | (injection hl with hl; subst hl
           first
             | exact adc_tick { c with current_opcode := read_u8 m c.pc } m (by simp; omega)
             | exact and_tick { c with current_opcode := read_u8 m c.pc } m (by simp; omega)
             | exact asl_tick { c with current_opcode := read_u8 m c.pc } m (by simp; omega)
             | exact bit_tick { c with current_opcode := read_u8 m c.pc } m (by simp; omega)
             | exact cmp_tick { c with current_opcode := read_u8 m c.pc } m (by simp; omega)
             | exact cpx_tick { c with current_opcode := read_u8 m c.pc } m (by simp; omega)
             | exact cpy_tick { c with current_opcode := read_u8 m c.pc } m (by simp; omega)
             | exact dec_tick { c with current_opcode := read_u8 m c.pc } m (by simp; omega)
             | exact eor_tick { c with current_opcode := read_u8 m c.pc } m (by simp; omega)
             | exact inc_tick { c with current_opcode := read_u8 m c.pc } m (by simp; omega)
             | exact jmp_tick { c with current_opcode := read_u8 m c.pc } m (by simp; omega)
             | exact lda_tick { c with current_opcode := read_u8 m c.pc } m (by simp; omega)
             | exact ldx_tick { c with current_opcode := read_u8 m c.pc } m (by simp; omega)
             | exact ldy_tick { c with current_opcode := read_u8 m c.pc } m (by simp; omega)
             | exact lsr_tick { c with current_opcode := read_u8 m c.pc } m (by simp; omega)
             | exact ora_tick { c with current_opcode := read_u8 m c.pc } m (by simp; omega)
             | exact rol_tick { c with current_opcode := read_u8 m c.pc } m (by simp; omega)
             | exact ror_tick { c with current_opcode := read_u8 m c.pc } m (by simp; omega)
             | exact sbc_tick { c with current_opcode := read_u8 m c.pc } m (by simp; omega)
             | exact sta_tick { c with current_opcode := read_u8 m c.pc } m (by simp; omega)
             | exact stx_tick { c with current_opcode := read_u8 m c.pc } m (by simp; omega)
             | exact sty_tick { c with current_opcode := read_u8 m c.pc } m (by simp; omega)
             | exact bcc_tick { c with current_opcode := read_u8 m c.pc } m
             | exact bcs_tick { c with current_opcode := read_u8 m c.pc } m
             | exact beq_tick { c with current_opcode := read_u8 m c.pc } m
             | exact bmi_tick { c with current_opcode := read_u8 m c.pc } m
             | exact bne_tick { c with current_opcode := read_u8 m c.pc } m
             | exact bpl_tick { c with current_opcode := read_u8 m c.pc } m
             | exact bvc_tick { c with current_opcode := read_u8 m c.pc } m
             | exact bvs_tick { c with current_opcode := read_u8 m c.pc } m
             | exact brk_tick { c with current_opcode := read_u8 m c.pc } m
             | exact jsr_tick { c with current_opcode := read_u8 m c.pc } m
             | exact pha_tick { c with current_opcode := read_u8 m c.pc } m
             | exact php_tick { c with current_opcode := read_u8 m c.pc } m
             | exact pla_tick { c with current_opcode := read_u8 m c.pc } m
             | exact plp_tick { c with current_opcode := read_u8 m c.pc } m
             | exact rti_tick { c with current_opcode := read_u8 m c.pc } m
             | exact rts_tick { c with current_opcode := read_u8 m c.pc } m
             | exact clc_tick { c with current_opcode := read_u8 m c.pc }
             | exact cld_tick { c with current_opcode := read_u8 m c.pc }
             | exact cli_tick { c with current_opcode := read_u8 m c.pc }
             | exact clv_tick { c with current_opcode := read_u8 m c.pc }
             | exact sec_tick { c with current_opcode := read_u8 m c.pc }
             | exact sed_tick { c with current_opcode := read_u8 m c.pc }
             | exact sei_tick { c with current_opcode := read_u8 m c.pc }
             | exact dex_tick { c with current_opcode := read_u8 m c.pc }
             | exact dey_tick { c with current_opcode := read_u8 m c.pc }
             | exact inx_tick { c with current_opcode := read_u8 m c.pc }
             | exact iny_tick { c with current_opcode := read_u8 m c.pc }
             | exact tax_tick { c with current_opcode := read_u8 m c.pc }
             | exact tay_tick { c with current_opcode := read_u8 m c.pc }
             | exact tsx_tick { c with current_opcode := read_u8 m c.pc }
             | exact txa_tick { c with current_opcode := read_u8 m c.pc }
             | exact txs_tick { c with current_opcode := read_u8 m c.pc }
             | exact tya_tick { c with current_opcode := read_u8 m c.pc }
             | exact nop_tick { c with current_opcode := read_u8 m c.pc })

end

lemma fetch_tick_le (c : Cpu) (m : Memory) :
    c.tick_count ≤ (fetch_and_execute c m).1.tick_count := by
  rcases hl : lookupHandler (read_u8 m c.pc) with _ | hdl
  · rw [fetch_unsupported c m hl]
  · exact le_of_lt (fetch_tick_lt c m (by rw [hl]; rfl))

lemma run_go_tick_le (budget start : Nat) :
    ∀ (fuel : Nat) (c : Cpu) (m : Memory) (bc : BreakCondition),
      c.tick_count ≤ (run_until_go budget start fuel c m bc).1.tick_count := by
  intro fuel
  induction fuel with
  | zero =>
    intro c m bc
    rw [run_until_go]
    split <;> simp
  | succ n ih =>
    intro c m bc
    rw [run_until_go]
    split
    · rcases bc with pc|_|_|_ <;>
        dsimp only <;>
        (try split) <;>
        first
          | exact fetch_tick_le c m
          | exact le_trans (fetch_tick_le c m) (ih _ _ _)
    · exact le_rfl

lemma push_u16_tick (cpu : Cpu) (m : Memory) (v : Nat) :
    (push_u16 cpu m v).1.tick_count = cpu.tick_count := by
  simp only [push_u16, push_u8]
  repeat' split
  all_goals simp

/-- Claim C6: for every opcode byte with no arm in the dispatch match,
`fetch_and_execute` leaves both the program counter and the tick counter
exactly unchanged for that step. -/
theorem c6_unsupported_opcode (c : Cpu) (m : Memory)
    (h : lookupHandler (read_u8 m c.pc) = none) :
    (fetch_and_execute c m).1.pc = c.pc ∧
    (fetch_and_execute c m).1.tick_count = c.tick_count := by
  rw [fetch_unsupported c m h]
  exact ⟨rfl, rfl⟩

/-- Witness for C6 at the unsupported opcode byte 0x02. -/
theorem c6_witness :
    lookupHandler (read_u8 (fun _ => 0x02) Cpu.new.pc) = none ∧
    ((fetch_and_execute Cpu.new (fun _ => 0x02)).1.pc = Cpu.new.pc ∧
     (fetch_and_execute Cpu.new (fun _ => 0x02)).1.tick_count = Cpu.new.tick_count) :=
  ⟨rfl, c6_unsupported_opcode Cpu.new (fun _ => 0x02) rfl⟩

/-- Claim C10: when `tick_count` is already at or beyond the scanline tick
budget on entry, `run_until_condition` returns false for every break
condition without executing an instruction and without touching the
processor state or the memory. -/
theorem c10_budget_exhausted (budget fuel : Nat) (c : Cpu) (m : Memory)
    (bc : BreakCondition) (h : budget ≤ c.tick_count) :
    run_until_condition budget fuel c m bc = (c, m, some false) := by
  rw [run_until_condition, run_until_go.eq_def, if_neg (by omega)]

/-- Witness for C10 with a zero budget. -/
theorem c10_witness :
    (0 : Nat) ≤ Cpu.new.tick_count ∧
    run_until_condition 0 3 Cpu.new (fun _ => 0) BreakCondition.RunNext =
      (Cpu.new, (fun _ => 0), some false) :=
  ⟨Nat.zero_le _,
   c10_budget_exhausted 0 3 Cpu.new (fun _ => 0) BreakCondition.RunNext (Nat.zero_le _)⟩

/-- Claim C8: `tick_count` never decreases across the public operations:
`fetch_and_execute` (any opcode), `run_until_condition` (any break
condition, any budget), `reset` and `push_u16`. -/
theorem c8_tick_monotone (budget fuel : Nat) (c : Cpu) (m : Memory)
    (bc : BreakCondition) (v : Nat) :
    c.tick_count ≤ (fetch_and_execute c m).1.tick_count ∧
    c.tick_count ≤ (run_until_condition budget fuel c m bc).1.tick_count ∧
    c.tick_count ≤ (reset c m).tick_count ∧
    c.tick_count ≤ (push_u16 c m v).1.tick_count := by
  refine ⟨fetch_tick_le c m, run_go_tick_le budget c.tick_count fuel c m bc, le_of_eq ?_,
          le_of_eq (push_u16_tick c m v).symm⟩
  rfl

/-- Claim C5 (amended): when the tick counter at entry is below the
scanline budget and the opcode at the program counter is supported,
`run_until_condition` with the `RunNext` break condition executes exactly
one instruction and returns true. -/
theorem c5_run_next (budget fuel : Nat) (c : Cpu) (m : Memory)
    (h1 : c.tick_count < budget)
    (h2 : (lookupHandler (read_u8 m c.pc)).isSome = true) :
    run_until_condition budget (fuel + 1) c m BreakCondition.RunNext =
      ((fetch_and_execute c m).1, (fetch_and_execute c m).2, some true) := by
  have ht := fetch_tick_lt c m h2
  rw [run_until_condition, run_until_go.eq_def, if_pos h1]
  dsimp only
  rw [if_pos (ne_of_gt ht)]

/-- Witness for C5 (amended): one LDA-immediate step under a budget of 100. -/
theorem c5_witness :
    Cpu.new.tick_count < 100 ∧
    (lookupHandler (read_u8 (fun _ => 0xa9) Cpu.new.pc)).isSome = true ∧
    run_until_condition 100 (0 + 1) Cpu.new (fun _ => 0xa9) BreakCondition.RunNext =
      ((fetch_and_execute Cpu.new (fun _ => 0xa9)).1,
       (fetch_and_execute Cpu.new (fun _ => 0xa9)).2, some true) :=
  ⟨by decide, rfl,
   c5_run_next 100 0 Cpu.new (fun _ => 0xa9) (by decide) rfl⟩

/-- Counterexample to C5 as stated: with the tick counter already at the
scanline budget on entry, the loop with `RunNext` returns false and
executes no instruction at all, instead of executing exactly one
instruction and returning true. -/
theorem c5_counterexample :
    run_until_condition 113 10 { Cpu.new with tick_count := 113 } (fun _ => 0xa9)
      BreakCondition.RunNext =
      ({ Cpu.new with tick_count := 113 }, (fun _ => 0xa9), some false) := rfl

/-- Claim C9: for every LSR opcode (0x4a, 0x46, 0x56, 0x4e, 0x5e), the
carry flag after the instruction is bit 0 of the accumulator before the
instruction, also in the memory addressing modes, where the shifted
operand's own bit 0 never reaches the carry flag. -/
theorem c9_lsr_carry_from_accumulator (c : Cpu) (m : Memory)
    (h : read_u8 m c.pc = 0x4a ∨ read_u8 m c.pc = 0x46 ∨ read_u8 m c.pc = 0x56 ∨
         read_u8 m c.pc = 0x4e ∨ read_u8 m c.pc = 0x5e) :
    (fetch_and_execute c m).1.carry = decide (c.a % 2 = 1) := by
  have hd : lookupHandler (read_u8 m c.pc) = some lsr := by
    rcases h with h|h|h|h|h <;> (rw [h]; rfl)
  rcases h with h|h|h|h|h <;>
    (simp only [fetch_and_execute, hd]
     simp only [lsr, absolute_x, zero_page, zero_page_x, absolute, h]
     repeat' split) <;>
    simp

/-- Witness for C9: LSR zero-page (0x46) on an even memory operand with an
odd accumulator still sets carry. -/
theorem c9_witness :
    (read_u8 (fun a => if a = 0 then 0x46 else if a = 1 then 0x10 else 2)
        ({ Cpu.new with pc := 0, a := 1 }).pc = 0x4a ∨
     read_u8 (fun a => if a = 0 then 0x46 else if a = 1 then 0x10 else 2)
        ({ Cpu.new with pc := 0, a := 1 }).pc = 0x46 ∨
     read_u8 (fun a => if a = 0 then 0x46 else if a = 1 then 0x10 else 2)
        ({ Cpu.new with pc := 0, a := 1 }).pc = 0x56 ∨
     read_u8 (fun a => if a = 0 then 0x46 else if a = 1 then 0x10 else 2)
        ({ Cpu.new with pc := 0, a := 1 }).pc = 0x4e ∨
     read_u8 (fun a => if a = 0 then 0x46 else if a = 1 then 0x10 else 2)
        ({ Cpu.new with pc := 0, a := 1 }).pc = 0x5e) ∧
    (fetch_and_execute { Cpu.new with pc := 0, a := 1 }
        (fun a => if a = 0 then 0x46 else if a = 1 then 0x10 else 2)).1.carry =
      decide (({ Cpu.new with pc := 0, a := 1 }).a % 2 = 1) :=
  ⟨by decide,
   c9_lsr_carry_from_accumulator { Cpu.new with pc := 0, a := 1 }
     (fun a => if a = 0 then 0x46 else if a = 1 then 0x10 else 2) (by decide)⟩

lemma decide_lt_eq_not_decide_le {α : Type} [LinearOrder α] (x y : α)
    [Decidable (x < y)] [Decidable (y ≤ x)] :
    decide (x < y) = !decide (y ≤ x) := by
  rcases lt_or_le x y with h|h
  · simp [h, not_le.2 h]
  · simp [h, not_lt.2 h]

/-- Claim C4: after every ADC opcode the overflow flag equals the carry
flag (both are `intermediate > 255`); after every SBC opcode the overflow
flag equals the negation of the carry flag (`intermediate < 0` versus
`intermediate ≥ 0`). -/
theorem c4_overflow_mirrors_carry (c : Cpu) (m : Memory) :
    ((read_u8 m c.pc = 0x69 ∨ read_u8 m c.pc = 0x65 ∨ read_u8 m c.pc = 0x75 ∨
      read_u8 m c.pc = 0x6d ∨ read_u8 m c.pc = 0x7d ∨ read_u8 m c.pc = 0x79 ∨
      read_u8 m c.pc = 0x61 ∨ read_u8 m c.pc = 0x71) →
        (fetch_and_execute c m).1.overflow = (fetch_and_execute c m).1.carry) ∧
    ((read_u8 m c.pc = 0xe9 ∨ read_u8 m c.pc = 0xe5 ∨ read_u8 m c.pc = 0xf5 ∨
      read_u8 m c.pc = 0xed ∨ read_u8 m c.pc = 0xfd ∨ read_u8 m c.pc = 0xf9 ∨
      read_u8 m c.pc = 0xe1 ∨ read_u8 m c.pc = 0xf1) →
        (fetch_and_execute c m).1.overflow = !(fetch_and_execute c m).1.carry) := by
  constructor
  · intro h
    have hd : lookupHandler (read_u8 m c.pc) = some adc := by
      rcases h with h|h|h|h|h|h|h|h <;> (rw [h]; rfl)
    rcases h with h|h|h|h|h|h|h|h <;>
      (simp only [fetch_and_execute, hd]
       simp only [adc, absolute_x, absolute_y, indirect_x, indirect_y, zero_page,
         zero_page_x, zero_page_y, absolute, h]
       repeat' split) <;>
      simp
  · intro h
    have hd : lookupHandler (read_u8 m c.pc) = some sbc := by
      rcases h with h|h|h|h|h|h|h|h <;> (rw [h]; rfl)
    rcases h with h|h|h|h|h|h|h|h <;>
      (simp only [fetch_and_execute, hd]
       simp only [sbc, absolute_x, absolute_y, indirect_x, indirect_y, zero_page,
         zero_page_x, zero_page_y, absolute, h]
       repeat' split) <;>
      simp [decide_lt_eq_not_decide_le]

/-- Witness for C4: ADC immediate at the reset placeholder program counter. -/
theorem c4_witness :
    (read_u8 (fun _ => 0x69) Cpu.new.pc = 0x69 ∨
     read_u8 (fun _ => 0x69) Cpu.new.pc = 0x65 ∨
     read_u8 (fun _ => 0x69) Cpu.new.pc = 0x75 ∨
     read_u8 (fun _ => 0x69) Cpu.new.pc = 0x6d ∨
     read_u8 (fun _ => 0x69) Cpu.new.pc = 0x7d ∨
     read_u8 (fun _ => 0x69) Cpu.new.pc = 0x79 ∨
     read_u8 (fun _ => 0x69) Cpu.new.pc = 0x61 ∨
     read_u8 (fun _ => 0x69) Cpu.new.pc = 0x71) ∧
    (fetch_and_execute Cpu.new (fun _ => 0x69)).1.overflow =
      (fetch_and_execute Cpu.new (fun _ => 0x69)).1.carry :=
  ⟨by decide, (c4_overflow_mirrors_carry Cpu.new (fun _ => 0x69)).1 (by decide)⟩

/-- Claim C7: pushing a 16-bit word and then immediately pulling a word,
with no intervening stack operations, returns the original value and
restores the stack pointer, for every 8-bit stack pointer including the
wraparound cases (the memory model is plain RAM, as the claim assumes). -/
theorem c7_stack_roundtrip (c : Cpu) (m : Memory) (v : Nat)
    (hv : v < 65536) (hsp : c.sp < 256) :
    (pull_u16 (push_u16 c m v).1 (push_u16 c m v).2).2 = v ∧
    (pull_u16 (push_u16 c m v).1 (push_u16 c m v).2).1.sp = c.sp := by
  simp only [push_u16, push_u8, pull_u16, pull_u8, read_u8, write_u8, make_address]
  repeat' split
  all_goals simp_all [write_u8]
  all_goals (repeat' split)
  all_goals (try simp_all)
  all_goals omega

/-- Witness for C7 at the wraparound stack pointer 0x00 and value 0xabcd. -/
theorem c7_witness :
    (0xabcd : Nat) < 65536 ∧ ({ Cpu.new with sp := 0 }).sp < 256 ∧
    ((pull_u16 (push_u16 { Cpu.new with sp := 0 } (fun _ => 0) 0xabcd).1
        (push_u16 { Cpu.new with sp := 0 } (fun _ => 0) 0xabcd).2).2 = 0xabcd ∧
     (pull_u16 (push_u16 { Cpu.new with sp := 0 } (fun _ => 0) 0xabcd).1
        (push_u16 { Cpu.new with sp := 0 } (fun _ => 0) 0xabcd).2).1.sp =
       ({ Cpu.new with sp := 0 }).sp) :=
  ⟨by decide, by decide,
   c7_stack_roundtrip { Cpu.new with sp := 0 } (fun _ => 0) 0xabcd (by decide) (by decide)⟩

/-- Claim C2 (code bug): executing BRK at 0x8000 with the interrupt vector
at 0xfffe holding 0x9000 pushes the 8-bit-truncated return address 0x0002
— high byte 0x00 at 0x01ff, low byte 0x02 at 0x01fe — instead of the
claimed 0x8002, because `brk` masks the advanced program counter with
0xff; the vector load, the tick charge and the flag updates behave as
claimed. -/
theorem c2_brk_return_address_truncated :
    (fetch_and_execute { Cpu.new with pc := 0x8000 }
        (fun a => if a = 0xfffe then 0x00 else if a = 0xffff then 0x90 else 0)).1.pc =
      0x9000 ∧
    (fetch_and_execute { Cpu.new with pc := 0x8000 }
        (fun a => if a = 0xfffe then 0x00 else if a = 0xffff then 0x90 else 0)).1.tick_count =
      7 ∧
    (fetch_and_execute { Cpu.new with pc := 0x8000 }
        (fun a => if a = 0xfffe then 0x00 else if a = 0xffff then 0x90 else 0)).1.interrupt =
      true ∧
    (fetch_and_execute { Cpu.new with pc := 0x8000 }
        (fun a => if a = 0xfffe then 0x00 else if a = 0xffff then 0x90 else 0)).1.brk =
      true ∧
    read_u8 (fetch_and_execute { Cpu.new with pc := 0x8000 }
        (fun a => if a = 0xfffe then 0x00 else if a = 0xffff then 0x90 else 0)).2 0x1ff =
      0x00 ∧
    read_u8 (fetch_and_execute { Cpu.new with pc := 0x8000 }
        (fun a => if a = 0xfffe then 0x00 else if a = 0xffff then 0x90 else 0)).2 0x1fe =
      0x02 := by
  decide

/-- Claim C3 (code bug): SBC immediate with accumulator 0x10, operand 0x01
and carry set yields accumulator 0x0e — the source subtracts the carry bit
itself (`a - value - carry`), not the borrow `1 - carry` stated by the
claim, which would give 0x0f. -/
theorem c3_sbc_inverted_borrow :
    (fetch_and_execute { Cpu.new with pc := 0x4000, a := 0x10, carry := true }
        (fun a => if a = 0x4000 then 0xe9 else if a = 0x4001 then 1 else 0)).1.a =
      0x0e ∧
    (fetch_and_execute { Cpu.new with pc := 0x4000, a := 0x10, carry := true }
        (fun a => if a = 0x4000 then 0xe9 else if a = 0x4001 then 1 else 0)).1.carry =
      true := by
  decide

/-- the flag condition each of the eight conditional-branch opcodes of
cpu.rs tests (bcc: carry clear, bcs: carry set, beq: zero set, bne: zero
clear, bmi: sign set, bpl: sign clear, bvc: overflow clear, bvs: overflow
set). -/
def branch_cond (op : Nat) (cpu : Cpu) : Bool :=
  if op = 0x90 then !cpu.carry
  else if op = 0xb0 then cpu.carry
  else if op = 0xf0 then cpu.zero
  else if op = 0xd0 then !cpu.zero
  else if op = 0x30 then cpu.sign
  else if op = 0x10 then !cpu.sign
  else if op = 0x50 then !cpu.overflow
  else if op = 0x70 then cpu.overflow
  else false

/-- Claim C1 (amended): a not-taken branch adds exactly 2 ticks; a taken
branch adds 3 when the source's page-cross check address — the
byte-following address plus 2 plus the sign-extended offset, not the
branch target itself — is in the same 256-byte page as the
byte-following address, and 4 otherwise. -/
theorem c1_branch_cycle_counts (c : Cpu) (m : Memory)
    (h : read_u8 m c.pc = 0x90 ∨ read_u8 m c.pc = 0xb0 ∨ read_u8 m c.pc = 0xf0 ∨
         read_u8 m c.pc = 0xd0 ∨ read_u8 m c.pc = 0x30 ∨ read_u8 m c.pc = 0x10 ∨
         read_u8 m c.pc = 0x50 ∨ read_u8 m c.pc = 0x70) :
    (fetch_and_execute c m).1.tick_count =
      c.tick_count +
        (if branch_cond (read_u8 m c.pc) c then
          (if branch_page_check ((c.pc + 2) % 65536) (read_u8 m ((c.pc + 1) % 65536)) then 4
           else 3)
         else 2) := by
  rcases h with h|h|h|h|h|h|h|h
  · have hd : lookupHandler 0x90 = some bcc := rfl
    simp only [fetch_and_execute, h, hd, bcc, branch_cond]
    norm_num
    repeat' split
    all_goals (try simp_all)
    all_goals omega
  · have hd : lookupHandler 0xb0 = some bcs := rfl
    simp only [fetch_and_execute, h, hd, bcs, branch_cond]
    norm_num
    repeat' split
    all_goals (try simp_all)
    all_goals omega
  · have hd : lookupHandler 0xf0 = some beq := rfl
    simp only [fetch_and_execute, h, hd, beq, branch_cond]
    norm_num
    repeat' split
    all_goals (try simp_all)
    all_goals omega
  · have hd : lookupHandler 0xd0 = some bne := rfl
    simp only [fetch_and_execute, h, hd, bne, branch_cond]
    norm_num
    repeat' split
    all_goals (try simp_all)
    all_goals omega
  · have hd : lookupHandler 0x30 = some bmi := rfl
    simp only [fetch_and_execute, h, hd, bmi, branch_cond]
    norm_num
    repeat' split
    all_goals (try simp_all)
    all_goals omega
  · have hd : lookupHandler 0x10 = some bpl := rfl
    simp only [fetch_and_execute, h, hd, bpl, branch_cond]
    norm_num
    repeat' split
    all_goals (try simp_all)
    all_goals omega
  · have hd : lookupHandler 0x50 = some bvc := rfl
    simp only [fetch_and_execute, h, hd, bvc, branch_cond]
    norm_num
    repeat' split
    all_goals (try simp_all)
    all_goals omega
  · have hd : lookupHandler 0x70 = some bvs := rfl
    simp only [fetch_and_execute, h, hd, bvs, branch_cond]
    norm_num
    repeat' split
    all_goals (try simp_all)
    all_goals omega

/-- Witness for C1 (amended): BCC with carry clear and offset 0x90
(-112), a taken cross-page branch. -/
theorem c1_witness :
    (read_u8 (fun _ => 0x90) ({ Cpu.new with pc := 0x1000 }).pc = 0x90 ∨
     read_u8 (fun _ => 0x90) ({ Cpu.new with pc := 0x1000 }).pc = 0xb0 ∨
     read_u8 (fun _ => 0x90) ({ Cpu.new with pc := 0x1000 }).pc = 0xf0 ∨
     read_u8 (fun _ => 0x90) ({ Cpu.new with pc := 0x1000 }).pc = 0xd0 ∨
     read_u8 (fun _ => 0x90) ({ Cpu.new with pc := 0x1000 }).pc = 0x30 ∨
     read_u8 (fun _ => 0x90) ({ Cpu.new with pc := 0x1000 }).pc = 0x10 ∨
     read_u8 (fun _ => 0x90) ({ Cpu.new with pc := 0x1000 }).pc = 0x50 ∨
     read_u8 (fun _ => 0x90) ({ Cpu.new with pc := 0x1000 }).pc = 0x70) ∧
    (fetch_and_execute { Cpu.new with pc := 0x1000 } (fun _ => 0x90)).1.tick_count =
      ({ Cpu.new with pc := 0x1000 }).tick_count +
        (if branch_cond (read_u8 (fun _ => 0x90) ({ Cpu.new with pc := 0x1000 }).pc)
            { Cpu.new with pc := 0x1000 } then
          (if branch_page_check ((({ Cpu.new with pc := 0x1000 }).pc + 2) % 65536)
              (read_u8 (fun _ => 0x90) ((({ Cpu.new with pc := 0x1000 }).pc + 1) % 65536)) then 4
           else 3)
         else 2) :=
  ⟨by decide,
   c1_branch_cycle_counts { Cpu.new with pc := 0x1000 } (fun _ => 0x90) (by decide)⟩

/-- Counterexample to C1 as stated: BCC at 0x10f9 with carry clear and
offset 3 is taken to 0x10fe, in the same 256-byte page as the following
address 0x10fb, yet it charges 4 ticks instead of the claimed 3 — the
source's page-cross check tests target+2, which here lands in the next
page. -/
theorem c1_counterexample :
    (fetch_and_execute { Cpu.new with pc := 0x10f9 }
        (fun a => if a = 0x10fa then 3 else 0x90)).1.tick_count =
      ({ Cpu.new with pc := 0x10f9 }).tick_count + 4 ∧
    (fetch_and_execute { Cpu.new with pc := 0x10f9 }
        (fun a => if a = 0x10fa then 3 else 0x90)).1.pc = 0x10fe ∧
    (0x10fe : Nat) / 256 = ((0x10f9 + 2) % 65536) / 256 := by
  decide

end RustyNes
